import Mathlib

/-!
Shallow embedding of the mapban lobby coordinator (the socket event hub in
the repository's core source file).  JavaScript `Map`s keyed by socket id are
modelled as insertion-ordered association lists, JS `Set`s as duplicate-free
insertion-ordered lists, the process-wide lobby store as a function from
lobby id to `Option Lobby`, and every socket emission as an element of a
`List Emit` (structured payloads that no claim inspects are carried as the
opaque marker `EValue.obj`).  JS numbers that the handlers do arithmetic on
are modelled as `Int`.
-/

namespace Mapban

/-- Role parameter of the `joinLobby` event (`Roles` in utils/types). -/
inductive Role where
  | member
  | observer
  | test
deriving DecidableEq, Repr

/-- Entry of `pickedMaps`.  FPS entries carry `side`/`sideTeamName`; Splatoon
entries carry `roundNumber`; the JS objects are merged into one record with
defaults for the fields the respective push omits. -/
structure PickedMap where
  map : String
  teamName : String
  side : String := ""
  sideTeamName : String := ""
  roundNumber : Int := 0
deriving DecidableEq, Repr

/-- Entry of `bannedMaps`; Splatoon pushes add `roundNumber`. -/
structure BannedMap where
  map : String
  teamName : String
  roundNumber : Int := 0
deriving DecidableEq, Repr

/-- Entry of `bannedModes` (Splatoon). -/
structure BannedMode where
  mode : String
  teamName : String
  translatedMode : String
deriving DecidableEq, Repr

/-- The `pickedMode` record (Splatoon); `translatedMode` is looked up in the
translation table without a fallback, hence `Option`. -/
structure PickedMode where
  mode : String
  teamName : String
  translatedMode : Option String
deriving DecidableEq, Repr

/-- Entry of `roundHistory` (Splatoon). -/
structure RoundEntry where
  roundNumber : Int
  pickedMaps : List PickedMap
  pickedMode : Option PickedMode
deriving DecidableEq, Repr

/-- The `rules` record of a lobby.  FPS and Splatoon rule fields are merged
into one record (the source types them as separate interfaces under one
`Lobby` union); Splatoon-only fields default to the FPS-irrelevant values. -/
structure Rules where
  gameName : String
  gameType : String
  mapNames : List String
  mapRulesList : List String
  coinFlip : Bool
  admin : Bool
  knifeDecider : Bool := false
  mapPoolSize : Int
  modesRulesList : List String := []
  activeModes : List String := []
  roundNumber : Int := 1
  modesSize : Int := 4
  lastWinner : Option String := none
deriving DecidableEq, Repr

/-- A lobby (`utils/types` `Lobby`, union of the FPS and Splatoon shapes). -/
structure Lobby where
  lobbyId : String
  members : List String
  teamNames : List (String × String)
  observers : List String
  pickedMaps : List PickedMap
  bannedMaps : List BannedMap
  rules : Rules
  gameStep : Int
  deciderMap : Option String := none
  bannedModes : List BannedMode := []
  pickedMode : Option PickedMode := none
  priorityTeam : Option String := none
  roundHistory : List RoundEntry := []
deriving DecidableEq, Repr

/-- The process-wide `lobbies` map, as a function from lobby id. -/
def Store : Type := String → Option Lobby

/-- Per-connection state: the rooms the socket joined (`socket.join`), the
`socket.data.lobbies` set, and the transient `socket.data.pickedMap`. -/
structure SocketState where
  rooms : List String
  dataLobbies : List String
  pickedMap : Option (String × String) := none
deriving DecidableEq, Repr

/-- Broadcast target: `io.to(socketId)`, `io.to(lobbyId)` (room), `io.emit`. -/
inductive Target where
  | socket (id : String)
  | room (id : String)
  | all
deriving DecidableEq, Repr

/-- Payload of an emission.  `obj` stands for structured payloads (entry
lists, settings records) that no claim inspects. -/
inductive EValue where
  | bool (b : Bool)
  | str (s : String)
  | int (n : Int)
  | strs (l : List String)
  | obj
  | unit
deriving DecidableEq, Repr

/-- One `io....emit(name, value)` call. -/
structure Emit where
  target : Target
  name : String
  value : EValue
deriving DecidableEq, Repr

/-- JS `Set.add`: append if absent (insertion order preserved). -/
def setAdd (s : List String) (x : String) : List String :=
  if s.contains x then s else s ++ [x]

/-- JS `Set.delete`. -/
def setDel (s : List String) (x : String) : List String :=
  s.filter (fun y => y != x)

/-- JS `Map.set`: overwrite in place if the key exists, else append. -/
def mapSet (m : List (String × String)) (k v : String) : List (String × String) :=
  if m.any (fun p => p.1 == k) then
    m.map (fun p => if p.1 == k then (k, v) else p)
  else m ++ [(k, v)]

/-- JS `Map.delete`. -/
def mapDel (m : List (String × String)) (k : String) : List (String × String) :=
  m.filter (fun p => p.1 != k)

/-- The `for ... of teamNames.entries()` loops that find the first entry whose
team name differs from the acting team. -/
def firstOther (m : List (String × String)) (t : String) : Option (String × String) :=
  m.find? (fun p => !(p.2 == t))

/-- The loops that find the first socket bound to a given (possibly
undefined) team name. -/
def firstKeyWithValue (m : List (String × String)) (v : Option String) : String :=
  ((m.find? (fun p => some p.2 == v)).map (fun p => p.1)).getD ""

/-- JS array indexing by a number: negative or out-of-range indices give
`undefined`, modelled as `""` (never a valid pattern token or map name). -/
def getStr (l : List String) (i : Int) : String :=
  if i < 0 then "" else l.getD i.toNat ""

/-- `getGameCategory` from the source hub. -/
def getGameCategory (gameName : String) : String :=
  if gameName == "splatoon" then "splatoon" else "fps"

/-- JS string interpolation of a possibly-undefined value. -/
def showOpt (o : Option String) : String :=
  o.getD "undefined"

/-- Modelled from the spec: `sanitizeInput` (utils/input-validation, not in
src).  Spec section 6: strip control characters, trim, cap at about 32
characters. -/
def sanitizeInput (s : String) : String :=
  ((s.toList.filter (fun c => !(c.val < 32 || c.val == 127))).asString).trim.take 32

/-- Modelled from the spec: `FPSGames.mapRulesLists` (games/fps-games, not in
src).  Spec section 4.1: `fpsPattern(gameType)` is a length-7 token list over
ban/pick/decider; scenario 1 fixes bo1 to six bans then a pick, scenario 2
fixes bo3/bo5 to ban,ban,pick,pick,ban,ban,decider. -/
def mapRulesLists (gameType : String) : List String :=
  if gameType == "bo1" then
    ["ban", "ban", "ban", "ban", "ban", "ban", "pick"]
  else if gameType == "bo3" || gameType == "bo5" then
    ["ban", "ban", "pick", "pick", "ban", "ban", "decider"]
  else []

/-- Modelled from the spec: `Splatoon.modeTranslations` (games/splatoon, not
in src) is the mode-to-display-name table (spec section 4.1,
`modeTranslation`).  Its concrete entries are not in src and no claim
inspects display names, so it is modelled as the empty table; the source's
fallback (`modeTranslations[mode] || mode`) then yields the raw mode name. -/
def modeTranslations (_mode : String) : Option String :=
  none

/-- Modelled from the spec: the state effect of `FPSGames.startGame` /
`Splatoon.startGame` (games modules, not in src).  Spec sections 4.3 and 4.5:
starting a game grants the first actor a capability and, for Splatoon, seeds
`priorityTeam` by coin flip or by `teamNames` insertion order; it does not
modify `members` or `teamNames`.  The coin-flip randomness is modelled by the
deterministic coin-flip-off choice (first-joined team). -/
def startGameLobby (lobby : Lobby) : Lobby :=
  if lobby.rules.gameName == "splatoon" then
    { lobby with priorityTeam := (lobby.teamNames.head?).map (fun p => p.2) }
  else lobby

/-- Modelled from the spec: the capability cue of `FPSGames.startGame` (not
in src).  Spec section 4.3 step 1: grant the first actor the capability
dictated by `pattern[gameStep]` (coin-flip randomness modelled by the
first-joined choice). -/
def fpsStartGameEmits (lobby : Lobby) : List Emit :=
  let first := ((lobby.teamNames.head?).map (fun p => p.1)).getD ""
  let cap := getStr lobby.rules.mapRulesList lobby.gameStep
  [⟨Target.socket first, "canWorkUpdated", EValue.bool true⟩,
   ⟨Target.socket first, (if cap == "pick" then "canPick" else "canBan"), EValue.bool true⟩]

/-- Emissions of the hub's `startGame` wrapper.  The Splatoon part mirrors
the source (startWithoutCoin cue, room-wide control reset, first-team mode
ban grant when the coin flip is off, modesUpdated); the inner games-module
emissions are modelled from the spec via `fpsStartGameEmits` and
`startGameLobby`. -/
def startGameEmits (lobbyId : String) (lobby : Lobby) : List Emit :=
  if getGameCategory lobby.rules.gameName = "splatoon" then
    let firstSocketId := ((lobby.teamNames.head?).map (fun p => p.1)).getD ""
    (if !lobby.rules.coinFlip then
      [⟨Target.room lobbyId, "startWithoutCoin", EValue.unit⟩] else []) ++
    [⟨Target.room lobbyId, "canWorkUpdated", EValue.bool false⟩,
     ⟨Target.room lobbyId, "canModeBan", EValue.bool false⟩,
     ⟨Target.room lobbyId, "canModePick", EValue.bool false⟩,
     ⟨Target.room lobbyId, "canBan", EValue.bool false⟩,
     ⟨Target.room lobbyId, "canPick", EValue.bool false⟩] ++
    (if !lobby.rules.coinFlip && firstSocketId != "" then
      [⟨Target.socket firstSocketId, "canWorkUpdated", EValue.bool true⟩,
       ⟨Target.socket firstSocketId, "canModeBan", EValue.bool true⟩] else []) ++
    [⟨Target.room lobbyId, "modesUpdated", EValue.obj⟩]
  else fpsStartGameEmits lobby

/-- Modelled from the spec: `Splatoon.startMapSelectionPhase` (games/splatoon,
not in src) grants the map-phase first actor (the priority team) the ban
capability; it does not modify lobby state visible to any claim. -/
def startMapSelectionPhaseEmits (lobby : Lobby) : List Emit :=
  let pid := firstKeyWithValue lobby.teamNames lobby.priorityTeam
  [⟨Target.socket pid, "canWorkUpdated", EValue.bool true⟩,
   ⟨Target.socket pid, "canBan", EValue.bool true⟩]

/-- The `joinLobby` handler.  The socket joins the transport room before the
existence check; the test role answers lobbyExists/lobbyUndefined; otherwise
a missing lobby answers lobbyUndefined; an existing lobby gets per-role lobby
settings, room-wide name broadcasts, the member/observer registration, the
socket's lobby-set update and catch-up emissions. -/
def handleJoinLobby (lobbies : Store) (sock : SocketState) (sid lobbyId : String)
    (role : Role) : Store × SocketState × List Emit :=
  let sock1 := { sock with rooms := setAdd sock.rooms lobbyId }
  if role = Role.test then
    (lobbies, sock1,
      [⟨Target.socket sid,
        (if (lobbies lobbyId).isSome then "lobbyExists" else "lobbyUndefined"),
        EValue.str lobbyId⟩])
  else
    match lobbies lobbyId with
    | none => (lobbies, sock1, [⟨Target.socket sid, "lobbyUndefined", EValue.str lobbyId⟩])
    | some lobby =>
      let e1 := if lobby.rules.gameName == "splatoon" then
          [⟨Target.socket sid, "modesSizeUpdated", EValue.int lobby.rules.modesSize⟩]
        else []
      let e2 := if getGameCategory lobby.rules.gameName = "fps" then
          [⟨Target.socket sid, "fpsLobbySettings", EValue.obj⟩]
        else []
      let e3 := [⟨Target.room lobbyId, "mapNames", EValue.strs lobby.rules.mapNames⟩,
                 ⟨Target.room lobbyId, "gameName", EValue.str lobby.rules.gameName⟩]
      let lobby1 :=
        if role = Role.observer then { lobby with observers := setAdd lobby.observers sid }
        else if role = Role.member then { lobby with members := setAdd lobby.members sid }
        else lobby
      let sock2 := { sock1 with dataLobbies := setAdd sock1.dataLobbies lobbyId }
      let e4 := if role = Role.member then
          [⟨Target.socket sid, "teamNamesUpdated", EValue.obj⟩]
        else []
      let e5 := if lobby1.pickedMaps.length > 0 then
          [⟨Target.socket sid, "pickedUpdated", EValue.obj⟩]
        else []
      let e6 := if lobby1.bannedMaps.length > 0 then
          [⟨Target.socket sid, "bannedUpdated", EValue.obj⟩]
        else []
      (Function.update lobbies lobbyId (some lobby1), sock2,
        e1 ++ e2 ++ e3 ++ e4 ++ e5 ++ e6)

/-- Payload of the `createFPSLobby` event. -/
structure CreateFPSData where
  lobbyId : String
  gameName : String
  gameType : String
  knifeDecider : Bool
  mapPoolSize : Int
  customMapPool : Option (String → List String)
  coinFlip : Option Bool
  admin : Option Bool

/-- The `createFPSLobby` handler.  `fpsPool` is the process-wide
`mapPool.fps` catalog (per-game map lists). -/
def handleCreateFPSLobby (lobbies : Store) (globalCoinFlip : Bool)
    (fpsPool : String → List String) (sid : String) (d : CreateFPSData) :
    Store × List Emit :=
  if (d.gameType = "bo3" ∨ d.gameType = "bo5") ∧ d.mapPoolSize ≠ 7 then
    (lobbies,
      [⟨Target.socket sid, "lobbyCreationError",
        EValue.str "Для BO3/BO5 размер маппула должен быть 7"⟩])
  else
    match lobbies d.lobbyId with
    | some _ => (lobbies, [])
    | none =>
      let sourceMapPool := (d.customMapPool.getD fpsPool) d.gameName
      let selectedMapPool := if d.mapPoolSize = 4 then sourceMapPool.take 4 else sourceMapPool
      let lobby : Lobby :=
        { lobbyId := d.lobbyId
          members := []
          teamNames := []
          observers := []
          pickedMaps := []
          bannedMaps := []
          rules :=
            { gameName := d.gameName
              gameType := d.gameType
              mapNames := selectedMapPool
              mapRulesList := mapRulesLists d.gameType
              coinFlip := d.coinFlip.getD globalCoinFlip
              admin := d.admin.getD false
              knifeDecider := d.knifeDecider
              mapPoolSize := d.mapPoolSize }
          gameStep := 7 - d.mapPoolSize }
      (Function.update lobbies d.lobbyId (some lobby),
        [⟨Target.socket sid, "lobbyCreated", EValue.str d.lobbyId⟩,
         ⟨Target.all, "lobbiesUpdated", EValue.unit⟩])

/-- The `lobby.teamName` handler: sanitize, bind the sender's team name,
broadcast, and auto-start the game at two teams when admin mode is off. -/
def handleTeamName (lobbies : Store) (sid lobbyId rawTeamName : String) :
    Store × List Emit :=
  let teamName := sanitizeInput rawTeamName
  match lobbies lobbyId with
  | none => (lobbies, [])
  | some lobby =>
    let lobby1 := { lobby with teamNames := mapSet lobby.teamNames sid teamName }
    let e1 : List Emit := [⟨Target.room lobbyId, "teamNamesUpdated", EValue.obj⟩]
    if ¬lobby1.rules.admin ∧ lobby1.teamNames.length = 2 then
      let lobby2 := startGameLobby lobby1
      (Function.update lobbies lobbyId (some lobby2), e1 ++ startGameEmits lobbyId lobby2)
    else
      (Function.update lobbies lobbyId (some lobby1), e1)

/-- Localized side name used by the pick state messages. -/
def sideText (side : String) : String :=
  if side == "t" then "атакующих"
  else if side == "ct" then "обороняющих"
  else side.toUpper

/-- The `lobby.pick` handler.  FPS: append the pick entry (in bo3/bo5 the map
is credited to the other team), advance, and hand out the next-token
capability, auto-resolving a knife decider; Splatoon: append the round's pick,
disable the room's controls and enable winner reporting room-wide. -/
def handlePick (lobbies : Store) (sock : SocketState) (sid lobbyId mapName teamName side : String) :
    Store × SocketState × List Emit :=
  match lobbies lobbyId with
  | none => (lobbies, sock, [])
  | some lobby =>
    let sideTeamName := teamName
    let fps := getGameCategory lobby.rules.gameName = "fps"
    let part1 : Lobby × List Emit :=
      if fps then
        if lobby.rules.gameType ≠ "bo1" then
          let msg := teamName ++ " выбрали " ++ sideText side ++ " на карте " ++ mapName
          let mapTeamName := (((firstOther lobby.teamNames teamName).map (fun p => p.2))).getD teamName
          ({ lobby with pickedMaps := lobby.pickedMaps ++
              [{ map := mapName, teamName := mapTeamName, side := side, sideTeamName := sideTeamName }] },
           [⟨Target.room lobbyId, "gameStateUpdated", EValue.str msg⟩])
        else
          ({ lobby with pickedMaps := lobby.pickedMaps ++
              [{ map := mapName, teamName := teamName, side := side, sideTeamName := sideTeamName }] },
           [])
      else
        ({ lobby with pickedMaps := lobby.pickedMaps ++
            [{ map := mapName, teamName := teamName, roundNumber := lobby.rules.roundNumber }] },
         [⟨Target.room lobbyId, "canWorkUpdated", EValue.bool false⟩,
          ⟨Target.room lobbyId, "canBan", EValue.bool false⟩,
          ⟨Target.room lobbyId, "canPick", EValue.bool false⟩,
          ⟨Target.room lobbyId, "canModeBan", EValue.bool false⟩,
          ⟨Target.room lobbyId, "canModePick", EValue.bool false⟩,
          ⟨Target.room lobbyId, "canReportWinner", EValue.bool true⟩])
    let lobby1 := { part1.1 with gameStep := part1.1.gameStep + 1 }
    let sock1 := { sock with pickedMap := none }
    let otherSocketId := (((firstOther lobby1.teamNames teamName).map (fun p => p.1))).getD ""
    let e2 : List Emit := [⟨Target.socket otherSocketId, "endPick", EValue.unit⟩]
    let part3 : Lobby × List Emit :=
      if lobby1.gameStep < 7 ∧ fps then
        let base : List Emit := [⟨Target.socket sid, "canWorkUpdated", EValue.bool true⟩]
        let tok := getStr lobby1.rules.mapRulesList lobby1.gameStep
        if tok = "pick" then
          (lobby1, base ++
            [⟨Target.socket sid, "canPick", EValue.bool true⟩,
             ⟨Target.room lobbyId, "gameStateUpdated",
               EValue.str (teamName ++ " выбирают карту для пика")⟩])
        else if tok = "decider" then
          if lobby1.rules.knifeDecider then
            let pickedAndBannedMaps :=
              lobby1.pickedMaps.map (fun p => p.map) ++ lobby1.bannedMaps.map (fun b => b.map)
            let notPickedMap :=
              lobby1.rules.mapNames.foldl
                (fun acc m => if pickedAndBannedMaps.contains m then acc else m) ""
            ({ lobby1 with
                pickedMaps := lobby1.pickedMaps ++
                  [{ map := notPickedMap, teamName := "", side := "DECIDER", sideTeamName := "" }],
                gameStep := lobby1.gameStep + 1 },
             base ++
               [⟨Target.socket otherSocketId, "canWorkUpdated", EValue.bool false⟩,
                ⟨Target.room lobbyId, "canWorkUpdated", EValue.bool false⟩,
                ⟨Target.room lobbyId, "pickedUpdated", EValue.obj⟩,
                ⟨Target.room lobbyId, "gameStateUpdated",
                  EValue.str ("Десайдер - " ++ notPickedMap)⟩])
          else
            (lobby1, base ++
              [⟨Target.socket sid, "canWorkUpdated", EValue.bool false⟩,
               ⟨Target.socket otherSocketId, "canWorkUpdated", EValue.bool true⟩,
               ⟨Target.socket otherSocketId, "canPick", EValue.bool true⟩,
               ⟨Target.room lobbyId, "gameStateUpdated",
                 EValue.str (teamName ++ " выбирают карту для пика")⟩])
        else if tok = "ban" then
          (lobby1, base ++
            [⟨Target.socket sid, "canBan", EValue.bool true⟩,
             ⟨Target.room lobbyId, "gameStateUpdated",
               EValue.str (teamName ++ " выбирают карту для бана")⟩])
        else (lobby1, base)
      else (lobby1, [⟨Target.room lobbyId, "canWorkUpdated", EValue.bool false⟩])
    (Function.update lobbies lobbyId (some part3.1), sock1,
      part1.2 ++ e2 ++ part3.2 ++ [⟨Target.room lobbyId, "pickedUpdated", EValue.obj⟩])

/-- Splatoon first-round map-ban turn logic (the source's 2-mode and 4-mode
first-round branches are textually identical and are both embedded by this
function): priority team bans 2, the other team bans 3, priority team picks.
`lobby` already carries the just-pushed ban. -/
def splatoonBanRound1Emits (lobbyId : String) (lobby : Lobby) (sid teamName : String) :
    List Emit :=
  let isPriorityTeam := some teamName = lobby.priorityTeam
  let priorityTeamBans :=
    (lobby.bannedMaps.filter (fun b => b.roundNumber == lobby.rules.roundNumber)).filter
      (fun b => some b.teamName == lobby.priorityTeam)
  if isPriorityTeam ∧ priorityTeamBans.length < 2 then
    [⟨Target.socket sid, "canWorkUpdated", EValue.bool true⟩,
     ⟨Target.socket sid, "canBan", EValue.bool true⟩,
     ⟨Target.room lobbyId, "gameStateUpdated",
       EValue.str (teamName ++ " выбирают карту для бана (" ++
         toString (priorityTeamBans.length + 1) ++ "/2)")⟩]
  else if ¬isPriorityTeam ∧ priorityTeamBans.length ≥ 2 then
    let otherTeamBans :=
      (lobby.bannedMaps.filter (fun b => b.roundNumber == lobby.rules.roundNumber)).filter
        (fun b => b.teamName == teamName)
    if otherTeamBans.length < 3 then
      [⟨Target.socket sid, "canWorkUpdated", EValue.bool true⟩,
       ⟨Target.socket sid, "canBan", EValue.bool true⟩,
       ⟨Target.room lobbyId, "gameStateUpdated",
         EValue.str (teamName ++ " выбирают карту для бана (" ++
           toString (otherTeamBans.length + 1) ++ "/3)")⟩]
    else
      let priorityTeamSocketId := firstKeyWithValue lobby.teamNames lobby.priorityTeam
      [⟨Target.socket sid, "canWorkUpdated", EValue.bool false⟩,
       ⟨Target.socket sid, "canBan", EValue.bool false⟩,
       ⟨Target.socket priorityTeamSocketId, "canWorkUpdated", EValue.bool true⟩,
       ⟨Target.socket priorityTeamSocketId, "canPick", EValue.bool true⟩,
       ⟨Target.room lobbyId, "gameStateUpdated",
         EValue.str (showOpt lobby.priorityTeam ++ " выбирают карту для игры")⟩]
  else if ¬isPriorityTeam ∧ priorityTeamBans.length < 2 then
    [⟨Target.socket sid, "canWorkUpdated", EValue.bool false⟩,
     ⟨Target.socket sid, "canBan", EValue.bool false⟩,
     ⟨Target.room lobbyId, "gameStateUpdated",
       EValue.str ("Ожидание, пока " ++ showOpt lobby.priorityTeam ++ " завершат свои баны")⟩]
  else if isPriorityTeam ∧ priorityTeamBans.length ≥ 2 then
    let otherEntry := lobby.teamNames.find? (fun p => !(some p.2 == lobby.priorityTeam))
    let otherTeamSocketId := ((otherEntry.map (fun p => p.1))).getD ""
    let otherTeamName := ((otherEntry.map (fun p => p.2))).getD ""
    [⟨Target.socket sid, "canWorkUpdated", EValue.bool false⟩,
     ⟨Target.socket sid, "canBan", EValue.bool false⟩,
     ⟨Target.socket otherTeamSocketId, "canWorkUpdated", EValue.bool true⟩,
     ⟨Target.socket otherTeamSocketId, "canBan", EValue.bool true⟩,
     ⟨Target.room lobbyId, "gameStateUpdated",
       EValue.str (otherTeamName ++ " выбирают карту для бана (1/3)")⟩]
  else []

/-- Splatoon later-round map-ban turn logic for `modesSize = 2`: the last
winner bans 2, the loser bans 3, the winner picks. -/
def splatoonBanNext2Emits (lobbyId : String) (lobby : Lobby) (sid teamName : String) :
    List Emit :=
  let isWinningTeam := some teamName = lobby.rules.lastWinner
  if isWinningTeam then
    let winningTeamBans :=
      (lobby.bannedMaps.filter (fun b => b.roundNumber == lobby.rules.roundNumber)).filter
        (fun b => b.teamName == teamName)
    if winningTeamBans.length < 2 then
      [⟨Target.socket sid, "canWorkUpdated", EValue.bool true⟩,
       ⟨Target.socket sid, "canBan", EValue.bool true⟩,
       ⟨Target.room lobbyId, "gameStateUpdated",
         EValue.str (teamName ++ " выбирают карту для бана (" ++
           toString (winningTeamBans.length + 1) ++ "/2)")⟩]
    else
      let losingEntry := lobby.teamNames.find? (fun p => !(p.2 == teamName))
      let losingSocketId := ((losingEntry.map (fun p => p.1))).getD ""
      let losingTeam := ((losingEntry.map (fun p => p.2))).getD ""
      [⟨Target.socket sid, "canWorkUpdated", EValue.bool false⟩,
       ⟨Target.socket sid, "canBan", EValue.bool false⟩,
       ⟨Target.socket losingSocketId, "canWorkUpdated", EValue.bool true⟩,
       ⟨Target.socket losingSocketId, "canBan", EValue.bool true⟩,
       ⟨Target.room lobbyId, "gameStateUpdated",
         EValue.str (losingTeam ++ " выбирают карту для бана (1/3)")⟩]
  else
    let losingTeamBans :=
      (lobby.bannedMaps.filter (fun b => b.roundNumber == lobby.rules.roundNumber)).filter
        (fun b => b.teamName == teamName)
    if losingTeamBans.length < 3 then
      [⟨Target.socket sid, "canWorkUpdated", EValue.bool true⟩,
       ⟨Target.socket sid, "canBan", EValue.bool true⟩,
       ⟨Target.room lobbyId, "gameStateUpdated",
         EValue.str (teamName ++ " выбирают карту для бана (" ++
           toString (losingTeamBans.length + 1) ++ "/3)")⟩]
    else
      let winningEntry := lobby.teamNames.find? (fun p => some p.2 == lobby.rules.lastWinner)
      let winningSocketId := ((winningEntry.map (fun p => p.1))).getD ""
      let winningTeam := ((winningEntry.map (fun p => p.2))).getD ""
      [⟨Target.socket sid, "canWorkUpdated", EValue.bool false⟩,
       ⟨Target.socket sid, "canBan", EValue.bool false⟩,
       ⟨Target.socket winningSocketId, "canWorkUpdated", EValue.bool true⟩,
       ⟨Target.socket winningSocketId, "canPick", EValue.bool true⟩,
       ⟨Target.room lobbyId, "gameStateUpdated",
         EValue.str (winningTeam ++ " выбирают карту для игры")⟩]

/-- Splatoon later-round map-ban turn logic for `modesSize = 4`: the last
winner bans 3, then the loser picks; a ban from the non-winning team changes
nothing. -/
def splatoonBanNext4Emits (lobbyId : String) (lobby : Lobby) (sid teamName : String) :
    List Emit :=
  let isWinningTeam := some teamName = lobby.rules.lastWinner
  if isWinningTeam then
    let winningTeamBans :=
      (lobby.bannedMaps.filter (fun b => b.roundNumber == lobby.rules.roundNumber)).filter
        (fun b => b.teamName == teamName)
    if winningTeamBans.length < 3 then
      [⟨Target.socket sid, "canWorkUpdated", EValue.bool true⟩,
       ⟨Target.socket sid, "canBan", EValue.bool true⟩,
       ⟨Target.room lobbyId, "gameStateUpdated",
         EValue.str (teamName ++ " выбирают карту для бана (" ++
           toString (winningTeamBans.length + 1) ++ "/3)")⟩]
    else
      let losingEntry := lobby.teamNames.find? (fun p => !(p.2 == teamName))
      let losingSocketId := ((losingEntry.map (fun p => p.1))).getD ""
      let losingTeam := ((losingEntry.map (fun p => p.2))).getD ""
      [⟨Target.socket sid, "canWorkUpdated", EValue.bool false⟩,
       ⟨Target.socket sid, "canBan", EValue.bool false⟩,
       ⟨Target.socket losingSocketId, "canWorkUpdated", EValue.bool true⟩,
       ⟨Target.socket losingSocketId, "canPick", EValue.bool true⟩,
       ⟨Target.room lobbyId, "gameStateUpdated",
         EValue.str (losingTeam ++ " выбирают карту для игры")⟩]
  else []

/-- Dispatch of the Splatoon map-ban turn logic by round and mode-pool size
(the source's first-round 2-mode and 4-mode branches are identical). -/
def splatoonBanEmits (lobbyId : String) (lobby : Lobby) (sid teamName : String) :
    List Emit :=
  if lobby.rules.roundNumber = 1 then
    if lobby.rules.modesSize = 2 then splatoonBanRound1Emits lobbyId lobby sid teamName
    else splatoonBanRound1Emits lobbyId lobby sid teamName
  else
    if lobby.rules.modesSize = 2 then splatoonBanNext2Emits lobbyId lobby sid teamName
    else splatoonBanNext4Emits lobbyId lobby sid teamName

/-- The `lobby.ban` handler: append the ban (with the round number for
Splatoon), advance, broadcast `bannedUpdated`, drop the sender's ban
capability, then run the per-game turn logic (Splatoon count-based turns, or
the FPS pattern step with knife-decider auto-resolution). -/
def handleBan (lobbies : Store) (sid lobbyId mapName teamName : String) :
    Store × List Emit :=
  match lobbies lobbyId with
  | none => (lobbies, [])
  | some lobby =>
    let splat := getGameCategory lobby.rules.gameName = "splatoon"
    let part1 : Lobby × List Emit :=
      if splat then
        ({ lobby with bannedMaps := lobby.bannedMaps ++
            [{ map := mapName, teamName := teamName, roundNumber := lobby.rules.roundNumber }] },
         [⟨Target.room lobbyId, "gameStateUpdated",
           EValue.str (teamName ++ " забанили карту " ++ mapName)⟩])
      else
        ({ lobby with bannedMaps := lobby.bannedMaps ++
            [{ map := mapName, teamName := teamName }] },
         [])
    let lobby1 := { part1.1 with gameStep := part1.1.gameStep + 1 }
    let e2 : List Emit :=
      [⟨Target.room lobbyId, "bannedUpdated", EValue.obj⟩,
       ⟨Target.socket sid, "canWorkUpdated", EValue.bool false⟩,
       ⟨Target.socket sid, "canBan", EValue.bool false⟩]
    let otherEntry := firstOther lobby1.teamNames teamName
    let otherSocketId := ((otherEntry.map (fun p => p.1))).getD ""
    let otherName := ((otherEntry.map (fun p => p.2))).getD ""
    let part3 : Lobby × List Emit :=
      if splat then
        (lobby1, splatoonBanEmits lobbyId lobby1 sid teamName)
      else if lobby1.gameStep < 7 ∧ getGameCategory lobby1.rules.gameName = "fps" then
        let base : List Emit := [⟨Target.socket otherSocketId, "canWorkUpdated", EValue.bool true⟩]
        let tok := getStr lobby1.rules.mapRulesList lobby1.gameStep
        if tok = "pick" then
          (lobby1, base ++
            [⟨Target.socket otherSocketId, "canPick", EValue.bool true⟩,
             ⟨Target.room lobbyId, "gameStateUpdated",
               EValue.str (otherName ++ " выбирают карту для пика")⟩])
        else if tok = "decider" then
          if lobby1.rules.knifeDecider then
            let pickedAndBannedMaps :=
              lobby1.pickedMaps.map (fun p => p.map) ++ lobby1.bannedMaps.map (fun b => b.map)
            let notPickedMap :=
              lobby1.rules.mapNames.foldl
                (fun acc m => if pickedAndBannedMaps.contains m then acc else m) ""
            ({ lobby1 with
                pickedMaps := lobby1.pickedMaps ++
                  [{ map := notPickedMap, teamName := "", side := "DECIDER", sideTeamName := "" }],
                gameStep := lobby1.gameStep + 1 },
             base ++
               [⟨Target.socket otherSocketId, "canWorkUpdated", EValue.bool false⟩,
                ⟨Target.room lobbyId, "canWorkUpdated", EValue.bool false⟩,
                ⟨Target.room lobbyId, "pickedUpdated", EValue.obj⟩,
                ⟨Target.room lobbyId, "gameStateUpdated",
                  EValue.str ("Десайдер - " ++ notPickedMap)⟩])
          else
            (lobby1, base ++
              [⟨Target.socket sid, "canWorkUpdated", EValue.bool false⟩,
               ⟨Target.socket otherSocketId, "canWorkUpdated", EValue.bool true⟩,
               ⟨Target.socket otherSocketId, "canPick", EValue.bool true⟩,
               ⟨Target.room lobbyId, "gameStateUpdated",
                 EValue.str (teamName ++ " выбирают карту для пика")⟩])
        else if tok = "ban" then
          (lobby1, base ++
            [⟨Target.socket otherSocketId, "canBan", EValue.bool true⟩,
             ⟨Target.room lobbyId, "gameStateUpdated",
               EValue.str (otherName ++ " выбирают карту для бана")⟩])
        else (lobby1, base)
      else (lobby1, [⟨Target.room lobbyId, "canWorkUpdated", EValue.bool false⟩])
    (Function.update lobbies lobbyId (some part3.1), part1.2 ++ e2 ++ part3.2)

/-- The `lobby.modeBan` handler (Splatoon only; a 2-mode lobby ignores it):
record the banned mode, drop it from `activeModes`, advance, and pass the
mode turn (round 1: alternate bans then the first banner picks; later rounds:
after the last winner's ban the other team picks). -/
def handleModeBan (lobbies : Store) (sid lobbyId mode teamName : String) :
    Store × List Emit :=
  match lobbies lobbyId with
  | none => (lobbies, [])
  | some lobby =>
    if getGameCategory lobby.rules.gameName = "splatoon" then
      if lobby.rules.modesSize = 2 then (lobbies, [])
      else
        let translatedMode := (modeTranslations mode).getD mode
        let lobby1 := { lobby with
          bannedModes := lobby.bannedModes ++
            [{ mode := mode, teamName := teamName, translatedMode := translatedMode }],
          rules := { lobby.rules with activeModes := lobby.rules.activeModes.erase mode },
          gameStep := lobby.gameStep + 1 }
        let otherEntry := firstOther lobby1.teamNames teamName
        let otherSocketId := ((otherEntry.map (fun p => p.1))).getD ""
        let otherName := ((otherEntry.map (fun p => p.2))).getD ""
        let e1 : List Emit :=
          [⟨Target.room lobbyId, "gameStateUpdated",
            EValue.str (teamName ++ " забанили режим " ++ translatedMode)⟩,
           ⟨Target.socket sid, "canWorkUpdated", EValue.bool false⟩,
           ⟨Target.socket sid, "canModeBan", EValue.bool false⟩,
           ⟨Target.socket sid, "canModePick", EValue.bool false⟩]
        let e2 : List Emit :=
          if lobby1.rules.roundNumber > 1 then
            if some teamName = lobby1.rules.lastWinner then
              [⟨Target.socket otherSocketId, "canWorkUpdated", EValue.bool true⟩,
               ⟨Target.socket otherSocketId, "canModePick", EValue.bool true⟩,
               ⟨Target.socket otherSocketId, "canModeBan", EValue.bool false⟩,
               ⟨Target.room lobbyId, "gameStateUpdated",
                 EValue.str (otherName ++ " выбирают режим для игры")⟩]
            else []
          else
            if lobby1.bannedModes.length = 2 then
              let firstBanTeam := (((lobby1.bannedModes.head?).map (fun b => b.teamName))).getD ""
              if firstBanTeam = teamName then
                [⟨Target.socket sid, "canWorkUpdated", EValue.bool true⟩,
                 ⟨Target.socket sid, "canModePick", EValue.bool true⟩,
                 ⟨Target.socket sid, "canModeBan", EValue.bool false⟩,
                 ⟨Target.room lobbyId, "gameStateUpdated",
                   EValue.str (teamName ++ " выбирают режим для игры")⟩]
              else
                [⟨Target.socket sid, "canWorkUpdated", EValue.bool false⟩,
                 ⟨Target.socket sid, "canModeBan", EValue.bool false⟩,
                 ⟨Target.socket otherSocketId, "canWorkUpdated", EValue.bool true⟩,
                 ⟨Target.socket otherSocketId, "canModePick", EValue.bool true⟩,
                 ⟨Target.socket otherSocketId, "canModeBan", EValue.bool false⟩,
                 ⟨Target.room lobbyId, "gameStateUpdated",
                   EValue.str (otherName ++ " выбирают режим для игры")⟩]
            else
              [⟨Target.socket otherSocketId, "canWorkUpdated", EValue.bool true⟩,
               ⟨Target.socket otherSocketId, "canModeBan", EValue.bool true⟩,
               ⟨Target.socket otherSocketId, "canModePick", EValue.bool false⟩,
               ⟨Target.socket sid, "canWorkUpdated", EValue.bool false⟩,
               ⟨Target.socket sid, "canModeBan", EValue.bool false⟩,
               ⟨Target.room lobbyId, "gameStateUpdated",
                 EValue.str (otherName ++ " выбирают режим для бана")⟩]
        let e3 : List Emit := [⟨Target.room lobbyId, "modesUpdated", EValue.obj⟩]
        (Function.update lobbies lobbyId (some lobby1), e1 ++ e2 ++ e3)
    else (lobbies, [])

/-- The `lobby.modePick` handler (Splatoon only): record the picked mode,
advance, load the mode's map pool from the process catalog, broadcast, reset
the room's controls and enter the map-selection phase. -/
def handleModePick (lobbies : Store) (splatoonPool : String → List String)
    (_sid lobbyId mode teamName : String) : Store × List Emit :=
  match lobbies lobbyId with
  | none => (lobbies, [])
  | some lobby =>
    if getGameCategory lobby.rules.gameName = "splatoon" then
      let pm : PickedMode :=
        { mode := mode, teamName := teamName, translatedMode := modeTranslations mode }
      let lobby1 := { lobby with
        pickedMode := some pm,
        gameStep := lobby.gameStep + 1,
        rules := { lobby.rules with mapNames := splatoonPool mode } }
      let translatedMode := (modeTranslations mode).getD mode
      (Function.update lobbies lobbyId (some lobby1),
       [⟨Target.room lobbyId, "gameStateUpdated",
         EValue.str (teamName ++ " выбрали режим " ++ translatedMode)⟩,
        ⟨Target.room lobbyId, "availableMaps", EValue.strs lobby1.rules.mapNames⟩,
        ⟨Target.room lobbyId, "canWorkUpdated", EValue.bool false⟩,
        ⟨Target.room lobbyId, "canModeBan", EValue.bool false⟩,
        ⟨Target.room lobbyId, "canModePick", EValue.bool false⟩,
        ⟨Target.room lobbyId, "canBan", EValue.bool false⟩,
        ⟨Target.room lobbyId, "canPick", EValue.bool false⟩]
       ++ startMapSelectionPhaseEmits lobby1
       ++ [⟨Target.room lobbyId, "modePicked", EValue.obj⟩])
    else (lobbies, [])

/-- One lobby's share of the `disconnect` handler: remove the socket from
`members` and `teamNames`, broadcast `teamNamesUpdated`, and either delete
the now-empty non-admin lobby (broadcasting `lobbiesUpdated`) or keep it and
broadcast `teamNamesUpdated` once more. -/
def disconnectStep (sid : String) (acc : Store × List Emit) (lobbyId : String) :
    Store × List Emit :=
  match acc.1 lobbyId with
  | none => acc
  | some lobby =>
    let lobby1 := { lobby with
      members := setDel lobby.members sid,
      teamNames := mapDel lobby.teamNames sid }
    let e1 := acc.2 ++ [⟨Target.room lobbyId, "teamNamesUpdated", EValue.obj⟩]
    if lobby1.members.length = 0 ∧ lobby1.rules.admin = false then
      (Function.update acc.1 lobbyId none,
       e1 ++ [⟨Target.all, "lobbiesUpdated", EValue.unit⟩])
    else
      (Function.update acc.1 lobbyId (some lobby1),
       e1 ++ [⟨Target.room lobbyId, "teamNamesUpdated", EValue.obj⟩])

/-- The `disconnect` handler: run `disconnectStep` over every lobby recorded
in the socket's `socket.data.lobbies` set. -/
def handleDisconnect (lobbies : Store) (sockLobbies : List String) (sid : String) :
    Store × List Emit :=
  sockLobbies.foldl (disconnectStep sid) (lobbies, [])

/-- The capability-event names. -/
def capNames : List String :=
  ["canWorkUpdated", "canBan", "canPick", "canModeBan", "canModePick", "canReportWinner"]

/-- Whether an emission reaches a connection, given the transport's room
membership (each socket also receives emissions addressed to its own id). -/
def reaches (roomMembers : String → List String) (t : Target) (sid : String) : Bool :=
  match t with
  | Target.socket s => s == sid
  | Target.room r => (roomMembers r).contains sid
  | Target.all => true

/-- Client-side capability state update induced by one emission: a boolean
capability event overwrites the capability of every connection it reaches. -/
def applyEmit (roomMembers : String → List String) (caps : String → String → Bool)
    (e : Emit) : String → String → Bool :=
  match e.value with
  | EValue.bool b =>
    if capNames.contains e.name then
      fun sid cap => if reaches roomMembers e.target sid && cap == e.name then b else caps sid cap
    else caps
  | _ => caps

/-- Capability state after a whole emission sequence. -/
def applyEmits (roomMembers : String → List String) (caps : String → String → Bool)
    (es : List Emit) : String → String → Bool :=
  es.foldl (applyEmit roomMembers) caps

/-- An emission sequence grants no capability: whichever capability a
connection holds afterwards, it already held before. -/
def grantsNoCapability (es : List Emit) : Prop :=
  ∀ (roomMembers : String → List String) (caps : String → String → Bool) (sid cap : String),
    applyEmits roomMembers caps es sid cap = true → caps sid cap = true

/-- The capability emissions of a sequence. -/
def capEmits (es : List Emit) : List Emit :=
  es.filter (fun e => capNames.contains e.name)

/-- The inbound events quantified over by the membership claims. -/
inductive CEvent where
  | join (sid lobbyId : String) (role : Role)
  | teamName (sid lobbyId name : String)

/-- Store effect of one membership-relevant event (the socket-state argument
of `handleJoinLobby` does not influence the store). -/
def cstep (st : Store) (e : CEvent) : Store :=
  match e with
  | CEvent.join sid lobbyId role => (handleJoinLobby st ⟨[], [], none⟩ sid lobbyId role).1
  | CEvent.teamName sid lobbyId name => (handleTeamName st sid lobbyId name).1

/-- Store after a sequence of joinLobby / lobby.teamName events. -/
def crun (st : Store) (es : List CEvent) : Store :=
  es.foldl cstep st

/-- The connection id that sent an event. -/
def sidOf : CEvent → String
  | CEvent.join sid _ _ => sid
  | CEvent.teamName sid _ _ => sid

/-- The empty lobby store. -/
def emptyStore : Store := fun _ => none

/-- Adding an element to a JS set always leaves it a member. -/
theorem mem_setAdd_self (s : List String) (x : String) : x ∈ setAdd s x := by
  unfold setAdd
  split
  · next h => simpa using h
  · simp

/-- A seven-map FPS pool used by the concrete witnesses. -/
def pool7 : String → List String :=
  fun _ => ["m1", "m2", "m3", "m4", "m5", "m6", "m7"]

/-- A concrete bo1 FPS lobby used by the concrete witnesses. -/
def lobA : Lobby :=
  { lobbyId := "L", members := ["a", "b"], teamNames := [("a", "A"), ("b", "B")],
    observers := [], pickedMaps := [], bannedMaps := [],
    rules := { gameName := "cs", gameType := "bo1", mapNames := pool7 "cs",
               mapRulesList := mapRulesLists "bo1", coinFlip := false, admin := false,
               knifeDecider := false, mapPoolSize := 7 },
    gameStep := 0 }

/-- A store holding `lobA` under id `"L"`. -/
def stA : Store := fun k => if k == "L" then some lobA else none

/-- Claim C4: replaying `createFPSLobby` with a lobbyId already present in
the store leaves the store unchanged — the existing lobby is not mutated and
no new lobby replaces it. -/
theorem mapban_C4 (st : Store) (g : Bool) (pool : String → List String) (sid : String)
    (d : CreateFPSData) (lobby : Lobby) (h : st d.lobbyId = some lobby) :
    (handleCreateFPSLobby st g pool sid d).1 = st := by
  unfold handleCreateFPSLobby
  split
  · rfl
  · rw [h]

/-- Witness for C4 at a concrete store and request. -/
theorem mapban_C4_witness :
    (handleCreateFPSLobby stA true pool7 "x"
      { lobbyId := "L", gameName := "cs", gameType := "bo1", knifeDecider := false,
        mapPoolSize := 7, customMapPool := none, coinFlip := none, admin := none }).1 = stA :=
  mapban_C4 stA true pool7 "x" _ lobA rfl

/-- Claim C5: a `createFPSLobby` request with gameType bo3/bo5 and
mapPoolSize different from 7 emits a single `lobbyCreationError` to the
requesting connection only, and the store is unchanged. -/
theorem mapban_C5 (st : Store) (g : Bool) (pool : String → List String) (sid : String)
    (d : CreateFPSData) (h1 : d.gameType = "bo3" ∨ d.gameType = "bo5")
    (h2 : d.mapPoolSize ≠ 7) :
    handleCreateFPSLobby st g pool sid d =
      (st, [⟨Target.socket sid, "lobbyCreationError",
        EValue.str "Для BO3/BO5 размер маппула должен быть 7"⟩]) := by
  unfold handleCreateFPSLobby
  rw [if_pos ⟨h1, h2⟩]

/-- Witness for C5 at a concrete request (bo3 with a 5-map pool). -/
theorem mapban_C5_witness :
    handleCreateFPSLobby emptyStore true pool7 "x"
      { lobbyId := "K", gameName := "cs", gameType := "bo3", knifeDecider := false,
        mapPoolSize := 5, customMapPool := none, coinFlip := none, admin := none } =
      (emptyStore, [⟨Target.socket "x", "lobbyCreationError",
        EValue.str "Для BO3/BO5 размер маппула должен быть 7"⟩]) :=
  mapban_C5 emptyStore true pool7 "x" _ (Or.inl rfl) (by decide)

/-- Claim C9: a successfully created FPS lobby with map pool size 4 or 7
starts at `gameStep = 7 - mapPoolSize`. -/
theorem mapban_C9 (st : Store) (g : Bool) (pool : String → List String) (sid : String)
    (d : CreateFPSData) (h0 : st d.lobbyId = none)
    (_h1 : d.mapPoolSize = 4 ∨ d.mapPoolSize = 7)
    (h2 : ¬((d.gameType = "bo3" ∨ d.gameType = "bo5") ∧ d.mapPoolSize ≠ 7)) :
    ∃ l, (handleCreateFPSLobby st g pool sid d).1 d.lobbyId = some l ∧
      l.gameStep = 7 - d.mapPoolSize := by
  unfold handleCreateFPSLobby
  rw [if_neg h2, h0]
  exact ⟨_, Function.update_same _ _ _, rfl⟩

/-- Witness for C9 at a concrete bo1 request with a 4-map pool. -/
theorem mapban_C9_witness :
    ∃ l, (handleCreateFPSLobby emptyStore true pool7 "x"
      { lobbyId := "K", gameName := "cs", gameType := "bo1", knifeDecider := false,
        mapPoolSize := 4, customMapPool := none, coinFlip := none, admin := none }).1 "K" =
        some l ∧ l.gameStep = 7 - 4 :=
  mapban_C9 emptyStore true pool7 "x" _ rfl (Or.inl rfl) (by decide)

/-- Claim C10: `joinLobby` for a lobbyId not in the store joins the socket to
the transport room before the existence check, answers `lobbyUndefined` to
the requester only, records nothing in the socket's lobby set, and neither
creates nor mutates any lobby state. -/
theorem mapban_C10 (st : Store) (sock : SocketState) (sid L : String) (role : Role)
    (h : st L = none) :
    handleJoinLobby st sock sid L role =
      (st, { sock with rooms := setAdd sock.rooms L },
       [⟨Target.socket sid, "lobbyUndefined", EValue.str L⟩]) ∧
    L ∈ setAdd sock.rooms L := by
  refine ⟨?_, mem_setAdd_self _ _⟩
  unfold handleJoinLobby
  cases role <;> simp [h]

/-- Witness for C10 at a concrete fresh socket and unknown lobby id. -/
theorem mapban_C10_witness :
    handleJoinLobby emptyStore ⟨[], [], none⟩ "a" "Z" Role.member =
      (emptyStore, { rooms := ["Z"], dataLobbies := [], pickedMap := none },
       [⟨Target.socket "a", "lobbyUndefined", EValue.str "Z"⟩]) ∧
    "Z" ∈ setAdd ([] : List String) "Z" :=
  mapban_C10 emptyStore ⟨[], [], none⟩ "a" "Z" Role.member rfl

/-- Prepending to a list shifts the default of `getLast?.getD`. -/
theorem getLastD_cons (l : List String) (x a : String) :
    ((x :: l).getLast?).getD a = (l.getLast?).getD x := by
  induction l generalizing x a with
  | nil => rfl
  | cons y ys ih => rw [List.getLast?_cons_cons, ih y a, ih y x]

/-- The source's keep-the-last-absent-map fold equals the last element of the
filtered list (with the initial accumulator as default). -/
theorem foldl_absent (pb : List String) (names : List String) : ∀ a : String,
    names.foldl (fun acc m => if pb.contains m then acc else m) a =
      ((names.filter (fun m => !(pb.contains m))).getLast?).getD a := by
  induction names with
  | nil => intro a; rfl
  | cons x xs ih =>
    intro a
    rw [List.foldl_cons, List.filter_cons]
    by_cases h : pb.contains x = true
    · rw [if_pos h, if_neg (by rw [h]; decide), ih]
    · have hb : pb.contains x = false := by revert h; cases pb.contains x <;> simp
      rw [if_neg (by rw [hb]; decide), if_pos (by rw [hb]; decide), ih, getLastD_cons]

/-- Claim C3: in an FPS ceremony with `knifeDecider`, when the pattern token
reached after a ban or a pick is `decider` and exactly one map of
`rules.mapNames` is in neither `pickedMaps` nor `bannedMaps`, the handler
appends that map with side `DECIDER` and empty team names, increments
`gameStep` once more, and grants no further capability to any connection. -/
theorem mapban_C3 (st : Store) (sock : SocketState)
    (sid L mapName teamName side M : String) (lobby : Lobby)
    (hst : st L = some lobby)
    (hcat : getGameCategory lobby.rules.gameName = "fps")
    (hknife : lobby.rules.knifeDecider = true)
    (hstep : lobby.gameStep + 1 < 7)
    (htok : getStr lobby.rules.mapRulesList (lobby.gameStep + 1) = "decider") :
    ((lobby.rules.mapNames.filter (fun m =>
        !((lobby.pickedMaps.map (fun p => p.map) ++
           (lobby.bannedMaps ++ [({ map := mapName, teamName := teamName } : BannedMap)]).map
             (fun b => b.map)).contains m))) = [M] →
      ∃ l, (handleBan st sid L mapName teamName).1 L = some l ∧
        l.pickedMaps = lobby.pickedMaps ++
          [{ map := M, teamName := "", side := "DECIDER", sideTeamName := "" }] ∧
        l.bannedMaps = lobby.bannedMaps ++ [{ map := mapName, teamName := teamName }] ∧
        l.gameStep = lobby.gameStep + 2 ∧
        grantsNoCapability (handleBan st sid L mapName teamName).2) ∧
    ((lobby.rules.mapNames.filter (fun m =>
        !(((lobby.pickedMaps.map (fun p => p.map) ++ [mapName]) ++
           lobby.bannedMaps.map (fun b => b.map)).contains m))) = [M] →
      ∃ l, (handlePick st sock sid L mapName teamName side).1 L = some l ∧
        (∃ pe : PickedMap, pe.map = mapName ∧
          l.pickedMaps = (lobby.pickedMaps ++ [pe]) ++
            [{ map := M, teamName := "", side := "DECIDER", sideTeamName := "" }]) ∧
        l.gameStep = lobby.gameStep + 2 ∧
        (∀ (rm : String → List String) (caps : String → String → Bool) (s c : String),
          sid ∈ rm L →
          applyEmits rm caps (handlePick st sock sid L mapName teamName side).2.2 s c = true →
          caps s c = true)) := by
  constructor
  · intro hone
    unfold handleBan
    rw [hst]
    simp [hcat, hknife, htok, hstep, Function.update_same]
    refine ⟨?_, by omega, ?_⟩
    · have hfun : (fun (acc : String) (m : String) =>
          if (∃ a ∈ lobby.pickedMaps, a.map = m) ∨ (∃ a ∈ lobby.bannedMaps, a.map = m) ∨ m = mapName
          then acc else m) =
          (fun (acc : String) (m : String) =>
            if (List.map (fun p => p.map) lobby.pickedMaps ++
                List.map (fun b => b.map)
                  (lobby.bannedMaps ++ [({ map := mapName, teamName := teamName } : BannedMap)])).contains m
            then acc else m) := by
        funext acc m
        refine if_congr ?_ rfl rfl
        simp
      rw [hfun, foldl_absent, hone]
      rfl
    · intro rm caps s c h
      simp [applyEmits, applyEmit, capNames, reaches] at h
      tauto
  · intro hone
    have hfun : (fun (acc : String) (m : String) =>
        if (∃ a ∈ lobby.pickedMaps, a.map = m) ∨ m = mapName ∨ (∃ a ∈ lobby.bannedMaps, a.map = m)
        then acc else m) =
        (fun (acc : String) (m : String) =>
          if ((List.map (fun p => p.map) lobby.pickedMaps ++ [mapName]) ++
              List.map (fun b => b.map) lobby.bannedMaps).contains m
          then acc else m) := by
      funext acc m
      refine if_congr ?_ rfl rfl
      simp
    unfold handlePick
    rw [hst]
    by_cases hbo : lobby.rules.gameType = "bo1"
    · simp [hbo, hcat, hknife, htok, hstep, Function.update_same]
      refine ⟨⟨_, rfl, rfl, ?_⟩, by omega, ?_⟩
      · rw [hfun, foldl_absent, hone]
        rfl
      · intro rm caps s c hr h
        simp [applyEmits, applyEmit, capNames, reaches] at h
        rcases h with ⟨h1, h2, h3⟩
        rcases h3 with ⟨he, hc⟩ | h4
        · exact absurd hr (he ▸ (h1.resolve_right (fun hn => hn hc)))
        · tauto
    · simp [hbo, hcat, hknife, htok, hstep, Function.update_same]
      refine ⟨⟨_, rfl, rfl, ?_⟩, by omega, ?_⟩
      · rw [hfun, foldl_absent, hone]
        rfl
      · intro rm caps s c hr h
        simp [applyEmits, applyEmit, capNames, reaches] at h
        rcases h with ⟨h1, h2, h3⟩
        rcases h3 with ⟨he, hc⟩ | h4
        · exact absurd hr (he ▸ (h1.resolve_right (fun hn => hn hc)))
        · tauto

/-- A concrete bo3 knife-decider lobby one ban away from the decider token. -/
def lobC3fix : Lobby :=
  { lobbyId := "L", members := ["a", "b"], teamNames := [("a", "A"), ("b", "B")],
    observers := [],
    pickedMaps := [{ map := "m3", teamName := "A", side := "t", sideTeamName := "B" },
                   { map := "m4", teamName := "B", side := "ct", sideTeamName := "A" }],
    bannedMaps := [⟨"m1", "A", 0⟩, ⟨"m2", "B", 0⟩, ⟨"m5", "A", 0⟩],
    rules := { gameName := "cs", gameType := "bo3", mapNames := pool7 "cs",
               mapRulesList := mapRulesLists "bo3", coinFlip := false, admin := false,
               knifeDecider := true, mapPoolSize := 7 },
    gameStep := 5 }

/-- A store holding `lobC3fix` under id `"L"`. -/
def stC3fix : Store := fun k => if k == "L" then some lobC3fix else none

/-- Witness for C3: the sixth ban of the concrete bo3 ceremony auto-appends
the single remaining map `m7` as the decider. -/
theorem mapban_C3_witness :
    ∃ l, (handleBan stC3fix "b" "L" "m6" "B").1 "L" = some l ∧
      l.pickedMaps = lobC3fix.pickedMaps ++
        [{ map := "m7", teamName := "", side := "DECIDER", sideTeamName := "" }] ∧
      l.bannedMaps = lobC3fix.bannedMaps ++ [{ map := "m6", teamName := "B" }] ∧
      l.gameStep = lobC3fix.gameStep + 2 ∧
      grantsNoCapability (handleBan stC3fix "b" "L" "m6" "B").2 :=
  (mapban_C3 stC3fix ⟨[], [], none⟩ "b" "L" "m6" "B" "" "m7" lobC3fix rfl rfl rfl
    (by decide) (by decide)).1 (by decide)

/-- In the bo3/bo5 pattern, the pick tokens sit at positions 2 and 3. -/
theorem pick_tok_bo3 (i : Int) (h : getStr (mapRulesLists "bo3") i = "pick") :
    i = 2 ∨ i = 3 := by
  unfold getStr at h
  split at h
  · exact absurd h (by decide)
  · next hneg =>
    have hb : ¬(7 ≤ i.toNat) := by
      intro hge
      rw [List.getD_eq_default _ _ (by simpa [mapRulesLists] using hge)] at h
      exact absurd h (by decide)
    have hcase : i.toNat = 0 ∨ i.toNat = 1 ∨ i.toNat = 2 ∨ i.toNat = 3 ∨ i.toNat = 4 ∨
        i.toNat = 5 ∨ i.toNat = 6 := by omega
    rcases hcase with hc | hc | hc | hc | hc | hc | hc <;> rw [hc] at h
    · exact absurd h (by decide)
    · exact absurd h (by decide)
    · left; omega
    · right; omega
    · exact absurd h (by decide)
    · exact absurd h (by decide)
    · exact absurd h (by decide)

/-- In the bo1 pattern, the only pick token sits at position 6. -/
theorem pick_tok_bo1 (i : Int) (h : getStr (mapRulesLists "bo1") i = "pick") :
    i = 6 := by
  unfold getStr at h
  split at h
  · exact absurd h (by decide)
  · next hneg =>
    have hb : ¬(7 ≤ i.toNat) := by
      intro hge
      rw [List.getD_eq_default _ _ (by simpa [mapRulesLists] using hge)] at h
      exact absurd h (by decide)
    have hcase : i.toNat = 0 ∨ i.toNat = 1 ∨ i.toNat = 2 ∨ i.toNat = 3 ∨ i.toNat = 4 ∨
        i.toNat = 5 ∨ i.toNat = 6 := by omega
    rcases hcase with hc | hc | hc | hc | hc | hc | hc <;> rw [hc] at h
    · exact absurd h (by decide)
    · exact absurd h (by decide)
    · exact absurd h (by decide)
    · exact absurd h (by decide)
    · exact absurd h (by decide)
    · exact absurd h (by decide)
    · omega

/-- Claim C8: at a legal pick position of a two-team FPS ceremony, a bo3/bo5
pick appends an entry whose `teamName` is the other member's team (the map is
credited to the non-side-picking team) and whose `sideTeamName` is the acting
team, incrementing `gameStep` by one; a bo1 pick credits both fields to the
acting team. -/
theorem mapban_C8 (st : Store) (sock : SocketState)
    (sid L mapName teamName side : String) (lobby : Lobby) (s1 t1 s2 t2 : String)
    (hst : st L = some lobby)
    (hcat : getGameCategory lobby.rules.gameName = "fps")
    (hteams : lobby.teamNames = [(s1, t1), (s2, t2)])
    (hne : t1 ≠ t2)
    (hmem : teamName = t1 ∨ teamName = t2)
    (hpat : lobby.rules.mapRulesList = mapRulesLists lobby.rules.gameType)
    (htok : getStr lobby.rules.mapRulesList lobby.gameStep = "pick") :
    ((lobby.rules.gameType = "bo3" ∨ lobby.rules.gameType = "bo5") →
      ∃ l, (handlePick st sock sid L mapName teamName side).1 L = some l ∧
        l.pickedMaps = lobby.pickedMaps ++
          [{ map := mapName, teamName := if teamName = t1 then t2 else t1,
             side := side, sideTeamName := teamName }] ∧
        l.gameStep = lobby.gameStep + 1) ∧
    (lobby.rules.gameType = "bo1" →
      ∃ l, (handlePick st sock sid L mapName teamName side).1 L = some l ∧
        l.pickedMaps = lobby.pickedMaps ++
          [{ map := mapName, teamName := teamName, side := side, sideTeamName := teamName }] ∧
        l.gameStep = lobby.gameStep + 1) := by
  constructor
  · intro hbo
    have hpat3 : lobby.rules.mapRulesList = mapRulesLists "bo3" := by
      rcases hbo with h | h <;> rw [hpat, h]
      decide
    have hbo1 : lobby.rules.gameType ≠ "bo1" := by
      rcases hbo with h | h <;> rw [h] <;> decide
    have hidx := pick_tok_bo3 lobby.gameStep (by rw [← hpat3]; exact htok)
    have hfo : firstOther lobby.teamNames teamName =
        some (if teamName = t1 then (s2, t2) else (s1, t1)) := by
      rcases hmem with ht | ht
      · rw [hteams, ht, if_pos rfl]
        have hb1 : (t1 == t1) = true := beq_self_eq_true t1
        have hb2 : (t2 == t1) = false := beq_eq_false_iff_ne.mpr (Ne.symm hne)
        simp [firstOther, List.find?, hb1, hb2]
      · rw [hteams, ht, if_neg (Ne.symm hne)]
        have hb1 : (t1 == t2) = false := beq_eq_false_iff_ne.mpr hne
        simp [firstOther, List.find?, hb1]
    rcases hidx with h2 | h3
    · have hstep : lobby.gameStep + 1 < 7 := by omega
      have htk : getStr lobby.rules.mapRulesList (lobby.gameStep + 1) = "pick" := by
        rw [hpat3, h2]; decide
      unfold handlePick
      rw [hst]
      simp [hbo1, hcat, hstep, htk, hfo, Function.update_same]
      split <;> rfl
    · have hstep : lobby.gameStep + 1 < 7 := by omega
      have htk : getStr lobby.rules.mapRulesList (lobby.gameStep + 1) = "ban" := by
        rw [hpat3, h3]; decide
      unfold handlePick
      rw [hst]
      simp [hbo1, hcat, hstep, htk, hfo, Function.update_same]
      split <;> rfl
  · intro hbo
    have hidx := pick_tok_bo1 lobby.gameStep (by rw [← hbo, ← hpat]; exact htok)
    have hstep : ¬(lobby.gameStep + 1 < 7) := by omega
    unfold handlePick
    rw [hst]
    simp [hbo, hcat, hstep, Function.update_same]

/-- A concrete bo3 lobby at its first pick position. -/
def lobC8fix : Lobby :=
  { lobbyId := "L", members := ["a", "b"], teamNames := [("a", "A"), ("b", "B")],
    observers := [], pickedMaps := [],
    bannedMaps := [⟨"m1", "A", 0⟩, ⟨"m2", "B", 0⟩],
    rules := { gameName := "cs", gameType := "bo3", mapNames := pool7 "cs",
               mapRulesList := mapRulesLists "bo3", coinFlip := false, admin := false,
               knifeDecider := false, mapPoolSize := 7 },
    gameStep := 2 }

/-- A store holding `lobC8fix` under id `"L"`. -/
def stC8fix : Store := fun k => if k == "L" then some lobC8fix else none

/-- Witness for C8: team A's bo3 pick of m3 with side t is credited to team B
with A as the side picker. -/
theorem mapban_C8_witness :
    ∃ l, (handlePick stC8fix ⟨[], [], none⟩ "a" "L" "m3" "A" "t").1 "L" = some l ∧
      l.pickedMaps = lobC8fix.pickedMaps ++
        [{ map := "m3", teamName := if "A" = "A" then "B" else "A",
           side := "t", sideTeamName := "A" }] ∧
      l.gameStep = lobC8fix.gameStep + 1 :=
  (mapban_C8 stC8fix ⟨[], [], none⟩ "a" "L" "m3" "A" "t" lobC8fix "a" "A" "b" "B"
    rfl rfl rfl (by decide) (Or.inl rfl) rfl (by decide)).1 (Or.inl rfl)

/-- A team action on an unknown lobby id changes nothing and emits nothing. -/
theorem teamAction_missing_lobby (st : Store) (pool : String → List String) (sock : SocketState)
    (s1 L mapName mode teamName side : String) (h : st L = none) :
    handleBan st s1 L mapName teamName = (st, []) ∧
    handlePick st sock s1 L mapName teamName side = (st, sock, []) ∧
    handleModeBan st s1 L mode teamName = (st, []) ∧
    handleModePick st pool s1 L mode teamName = (st, []) := by
  unfold handleBan handlePick handleModeBan handleModePick
  rw [h]
  exact ⟨rfl, rfl, rfl, rfl⟩

/-- The store after a ban does not depend on which connection sent it. -/
theorem handleBan_store_indep (st : Store) (s1 s2 L mapName teamName : String) (lobby : Lobby)
    (h : st L = some lobby) :
    (handleBan st s1 L mapName teamName).1 = (handleBan st s2 L mapName teamName).1 := by
  by_cases hsplat : getGameCategory lobby.rules.gameName = "splatoon"
  · unfold handleBan
    rw [h]
    simp [hsplat]
  · have hfps : getGameCategory lobby.rules.gameName = "fps" := by
      unfold getGameCategory at hsplat ⊢
      by_cases hg : (lobby.rules.gameName == "splatoon") = true
      · rw [if_pos hg] at hsplat; exact absurd rfl hsplat
      · rw [if_neg hg]
    unfold handleBan
    rw [h]
    by_cases hlt : lobby.gameStep + 1 < 7
    · by_cases htokp : getStr lobby.rules.mapRulesList (lobby.gameStep + 1) = "pick"
      · simp [hsplat, hfps, hlt, htokp]
      · by_cases htokd : getStr lobby.rules.mapRulesList (lobby.gameStep + 1) = "decider"
        · by_cases hkn : lobby.rules.knifeDecider = true
          · simp [hsplat, hfps, hlt, htokp, htokd, hkn]
          · simp [hsplat, hfps, hlt, htokp, htokd, hkn]
        · by_cases htokb : getStr lobby.rules.mapRulesList (lobby.gameStep + 1) = "ban"
          · simp [hsplat, hfps, hlt, htokp, htokd, htokb]
          · simp [hsplat, hfps, hlt, htokp, htokd, htokb]
    · simp [hsplat, hfps, hlt]


/-- A ban on an existing lobby always grows `bannedMaps` and advances. -/
theorem handleBan_store_changed (st : Store) (s1 L mapName teamName : String) (lobby : Lobby)
    (h : st L = some lobby) :
    ∃ l, (handleBan st s1 L mapName teamName).1 L = some l ∧
      l.bannedMaps.length = lobby.bannedMaps.length + 1 ∧ lobby.gameStep < l.gameStep := by
  by_cases hsplat : getGameCategory lobby.rules.gameName = "splatoon"
  · unfold handleBan
    rw [h]
    simp [hsplat, Function.update_same]
  · have hfps : getGameCategory lobby.rules.gameName = "fps" := by
      unfold getGameCategory at hsplat ⊢
      by_cases hg : (lobby.rules.gameName == "splatoon") = true
      · rw [if_pos hg] at hsplat; exact absurd rfl hsplat
      · rw [if_neg hg]
    unfold handleBan
    rw [h]
    by_cases hlt : lobby.gameStep + 1 < 7
    · by_cases htokp : getStr lobby.rules.mapRulesList (lobby.gameStep + 1) = "pick"
      · simp [hsplat, hfps, hlt, htokp, Function.update_same]
      · by_cases htokd : getStr lobby.rules.mapRulesList (lobby.gameStep + 1) = "decider"
        · by_cases hkn : lobby.rules.knifeDecider = true
          · simp [hsplat, hfps, hlt, htokp, htokd, hkn, Function.update_same]
            omega
          · simp [hsplat, hfps, hlt, htokp, htokd, hkn, Function.update_same]
        · by_cases htokb : getStr lobby.rules.mapRulesList (lobby.gameStep + 1) = "ban"
          · simp [hsplat, hfps, hlt, htokp, htokd, htokb, Function.update_same]
          · simp [hsplat, hfps, hlt, htokp, htokd, htokb, Function.update_same]
    · simp [hsplat, hfps, hlt, Function.update_same]

/-- The store after a pick does not depend on which connection sent it. -/
theorem handlePick_store_indep (st : Store) (sock : SocketState) (s1 s2 L mapName teamName side : String)
    (lobby : Lobby) (h : st L = some lobby) :
    (handlePick st sock s1 L mapName teamName side).1 =
      (handlePick st sock s2 L mapName teamName side).1 := by
  by_cases hsplat : getGameCategory lobby.rules.gameName = "splatoon"
  · unfold handlePick
    rw [h]
    simp [hsplat]
  · have hfps : getGameCategory lobby.rules.gameName = "fps" := by
      unfold getGameCategory at hsplat ⊢
      by_cases hg : (lobby.rules.gameName == "splatoon") = true
      · rw [if_pos hg] at hsplat; exact absurd rfl hsplat
      · rw [if_neg hg]
    unfold handlePick
    rw [h]
    by_cases hbo : lobby.rules.gameType = "bo1" <;>
    by_cases hlt : lobby.gameStep + 1 < 7
    · by_cases htokp : getStr lobby.rules.mapRulesList (lobby.gameStep + 1) = "pick"
      · simp [hsplat, hfps, hlt, htokp, hbo]
      · by_cases htokd : getStr lobby.rules.mapRulesList (lobby.gameStep + 1) = "decider"
        · by_cases hkn : lobby.rules.knifeDecider = true
          · simp [hsplat, hfps, hlt, htokp, htokd, hkn, hbo]
          · simp [hsplat, hfps, hlt, htokp, htokd, hkn, hbo]
        · by_cases htokb : getStr lobby.rules.mapRulesList (lobby.gameStep + 1) = "ban"
          · simp [hsplat, hfps, hlt, htokp, htokd, htokb, hbo]
          · simp [hsplat, hfps, hlt, htokp, htokd, htokb, hbo]
    · simp [hsplat, hfps, hlt, hbo]
    · by_cases htokp : getStr lobby.rules.mapRulesList (lobby.gameStep + 1) = "pick"
      · simp [hsplat, hfps, hlt, htokp, hbo]
      · by_cases htokd : getStr lobby.rules.mapRulesList (lobby.gameStep + 1) = "decider"
        · by_cases hkn : lobby.rules.knifeDecider = true
          · simp [hsplat, hfps, hlt, htokp, htokd, hkn, hbo]
          · simp [hsplat, hfps, hlt, htokp, htokd, hkn, hbo]
        · by_cases htokb : getStr lobby.rules.mapRulesList (lobby.gameStep + 1) = "ban"
          · simp [hsplat, hfps, hlt, htokp, htokd, htokb, hbo]
          · simp [hsplat, hfps, hlt, htokp, htokd, htokb, hbo]
    · simp [hsplat, hfps, hlt, hbo]

/-- A pick on an existing lobby always grows `pickedMaps` and advances. -/
theorem handlePick_store_changed (st : Store) (sock : SocketState) (s1 L mapName teamName side : String)
    (lobby : Lobby) (h : st L = some lobby) :
    ∃ l, (handlePick st sock s1 L mapName teamName side).1 L = some l ∧
      lobby.pickedMaps.length < l.pickedMaps.length ∧ lobby.gameStep < l.gameStep := by
  by_cases hsplat : getGameCategory lobby.rules.gameName = "splatoon"
  · unfold handlePick
    rw [h]
    simp [hsplat, Function.update_same]
  · have hfps : getGameCategory lobby.rules.gameName = "fps" := by
      unfold getGameCategory at hsplat ⊢
      by_cases hg : (lobby.rules.gameName == "splatoon") = true
      · rw [if_pos hg] at hsplat; exact absurd rfl hsplat
      · rw [if_neg hg]
    unfold handlePick
    rw [h]
    by_cases hlt : lobby.gameStep + 1 < 7
    · by_cases htokp : getStr lobby.rules.mapRulesList (lobby.gameStep + 1) = "pick"
      · by_cases hbo : lobby.rules.gameType = "bo1"
        · simp [hsplat, hfps, hlt, htokp, hbo, Function.update_same]
        · simp [hsplat, hfps, hlt, htokp, hbo, Function.update_same]
      · by_cases htokd : getStr lobby.rules.mapRulesList (lobby.gameStep + 1) = "decider"
        · by_cases hkn : lobby.rules.knifeDecider = true
          · by_cases hbo : lobby.rules.gameType = "bo1"
            · simp [hsplat, hfps, hlt, htokp, htokd, hkn, hbo, Function.update_same]
              omega
            · simp [hsplat, hfps, hlt, htokp, htokd, hkn, hbo, Function.update_same]
              omega
          · by_cases hbo : lobby.rules.gameType = "bo1"
            · simp [hsplat, hfps, hlt, htokp, htokd, hkn, hbo, Function.update_same]
            · simp [hsplat, hfps, hlt, htokp, htokd, hkn, hbo, Function.update_same]
        · by_cases htokb : getStr lobby.rules.mapRulesList (lobby.gameStep + 1) = "ban"
          · by_cases hbo : lobby.rules.gameType = "bo1"
            · simp [hsplat, hfps, hlt, htokp, htokd, htokb, hbo, Function.update_same]
            · simp [hsplat, hfps, hlt, htokp, htokd, htokb, hbo, Function.update_same]
          · by_cases hbo : lobby.rules.gameType = "bo1"
            · simp [hsplat, hfps, hlt, htokp, htokd, htokb, hbo, Function.update_same]
            · simp [hsplat, hfps, hlt, htokp, htokd, htokb, hbo, Function.update_same]
    · by_cases hbo : lobby.rules.gameType = "bo1"
      · simp [hsplat, hfps, hlt, hbo, Function.update_same]
      · simp [hsplat, hfps, hlt, hbo, Function.update_same]

/-- A mode ban is sender-independent, and on a 4-mode Splatoon lobby it always grows `bannedModes` and advances. -/
theorem handleModeBan_store (st : Store) (s1 s2 L mode teamName : String) (lobby : Lobby)
    (h : st L = some lobby) :
    ((handleModeBan st s1 L mode teamName).1 = (handleModeBan st s2 L mode teamName).1) ∧
    (getGameCategory lobby.rules.gameName = "splatoon" → lobby.rules.modesSize ≠ 2 →
      ∃ l, (handleModeBan st s1 L mode teamName).1 L = some l ∧
        l.bannedModes.length = lobby.bannedModes.length + 1 ∧
        l.gameStep = lobby.gameStep + 1) := by
  constructor
  · by_cases hsplat : getGameCategory lobby.rules.gameName = "splatoon"
    · by_cases hm2 : lobby.rules.modesSize = 2
      · unfold handleModeBan
        rw [h]
        simp [hsplat, hm2]
      · by_cases hr : lobby.rules.roundNumber > 1
        · by_cases hw : some teamName = lobby.rules.lastWinner
          · unfold handleModeBan
            rw [h]
            simp [hsplat, hm2, hr, hw]
          · unfold handleModeBan
            rw [h]
            simp [hsplat, hm2, hr, hw]
        · unfold handleModeBan
          rw [h]
          simp [hsplat, hm2, hr]
    · unfold handleModeBan
      rw [h]
      simp [hsplat]
  · intro hsplat hm2
    unfold handleModeBan
    rw [h]
    simp [hsplat, hm2, Function.update_same]

/-- A mode pick on a Splatoon lobby always records the mode and advances. -/
theorem handleModePick_store (st : Store) (pool : String → List String) (s1 L mode teamName : String)
    (lobby : Lobby) (h : st L = some lobby)
    (hsplat : getGameCategory lobby.rules.gameName = "splatoon") :
    ∃ l, (handleModePick st pool s1 L mode teamName).1 L = some l ∧
      (∃ pm : PickedMode, l.pickedMode = some pm ∧ pm.mode = mode) ∧
      l.gameStep = lobby.gameStep + 1 := by
  unfold handleModePick
  rw [h]
  simp [hsplat, Function.update_same]

/-- Claim C1 (amended): the server performs no authorization on team
actions.  A ban, pick, mode ban or mode pick whose lobby id does not resolve
is dropped silently (store unchanged, nothing emitted); on an existing lobby
the action is applied regardless of the sender subject only to the handler's
own game-category and mode-size guards: the resulting store is independent of
the sending connection, and the corresponding state (bannedMaps, pickedMaps,
bannedModes, pickedMode, gameStep) always changes. -/
theorem mapban_C1_amended (st : Store) (pool : String → List String) (sock : SocketState)
    (s1 s2 L mapName mode teamName side : String) :
    (st L = none →
      handleBan st s1 L mapName teamName = (st, []) ∧
      handlePick st sock s1 L mapName teamName side = (st, sock, []) ∧
      handleModeBan st s1 L mode teamName = (st, []) ∧
      handleModePick st pool s1 L mode teamName = (st, [])) ∧
    (∀ lobby, st L = some lobby →
      ((handleBan st s1 L mapName teamName).1 = (handleBan st s2 L mapName teamName).1) ∧
      (∃ l, (handleBan st s1 L mapName teamName).1 L = some l ∧
        l.bannedMaps.length = lobby.bannedMaps.length + 1 ∧ lobby.gameStep < l.gameStep) ∧
      ((handlePick st sock s1 L mapName teamName side).1 =
        (handlePick st sock s2 L mapName teamName side).1) ∧
      (∃ l, (handlePick st sock s1 L mapName teamName side).1 L = some l ∧
        lobby.pickedMaps.length < l.pickedMaps.length ∧ lobby.gameStep < l.gameStep) ∧
      ((handleModeBan st s1 L mode teamName).1 = (handleModeBan st s2 L mode teamName).1) ∧
      (getGameCategory lobby.rules.gameName = "splatoon" → lobby.rules.modesSize ≠ 2 →
        ∃ l, (handleModeBan st s1 L mode teamName).1 L = some l ∧
          l.bannedModes.length = lobby.bannedModes.length + 1 ∧
          l.gameStep = lobby.gameStep + 1) ∧
      (getGameCategory lobby.rules.gameName = "splatoon" →
        ∃ l, (handleModePick st pool s1 L mode teamName).1 L = some l ∧
          (∃ pm : PickedMode, l.pickedMode = some pm ∧ pm.mode = mode) ∧
          l.gameStep = lobby.gameStep + 1)) :=
  ⟨fun h => teamAction_missing_lobby st pool sock s1 L mapName mode teamName side h,
   fun lobby h =>
    ⟨handleBan_store_indep st s1 s2 L mapName teamName lobby h,
     handleBan_store_changed st s1 L mapName teamName lobby h,
     handlePick_store_indep st sock s1 s2 L mapName teamName side lobby h,
     handlePick_store_changed st sock s1 L mapName teamName side lobby h,
     (handleModeBan_store st s1 s2 L mode teamName lobby h).1,
     (handleModeBan_store st s1 s2 L mode teamName lobby h).2,
     fun hs => handleModePick_store st pool s1 L mode teamName lobby h hs⟩⟩

/-- Counterexample to C1 as stated: connection `z` is neither a member of the
concrete lobby nor listed in its `teamNames`, yet its `lobby.ban` mutates the
lobby and broadcasts. -/
theorem mapban_C1_counterexample :
    ("z" ∉ lobA.members) ∧ (∀ p ∈ lobA.teamNames, p.1 ≠ "z") ∧
    (handleBan stA "z" "L" "m1" "Z").1 "L" ≠ some lobA ∧
    (handleBan stA "z" "L" "m1" "Z").2 ≠ [] := by
  refine ⟨by decide, by decide, by decide, by decide⟩

/-- Witness for the amended C1 at a concrete store: the ban's store effect is
the same for the member `a` and the stranger `zz`, the ban is recorded, and
the same event on the unknown id `K` is dropped silently. -/
theorem mapban_C1_amended_witness :
    ((handleBan stA "a" "L" "m1" "A").1 = (handleBan stA "zz" "L" "m1" "A").1) ∧
    (∃ l, (handleBan stA "a" "L" "m1" "A").1 "L" = some l ∧
      l.bannedMaps.length = lobA.bannedMaps.length + 1 ∧ lobA.gameStep < l.gameStep) ∧
    handleBan stA "a" "K" "m1" "A" = (stA, []) :=
  ⟨((mapban_C1_amended stA pool7 ⟨[], [], none⟩ "a" "zz" "L" "m1" "tower" "A" "t").2
      lobA rfl).1,
   ((mapban_C1_amended stA pool7 ⟨[], [], none⟩ "a" "zz" "L" "m1" "tower" "A" "t").2
      lobA rfl).2.1,
   ((mapban_C1_amended stA pool7 ⟨[], [], none⟩ "a" "zz" "K" "m1" "tower" "A" "t").1
      rfl).1⟩

/-- A concrete Splatoon lobby with members `a`, `b` and observer `o`. -/
def lobC7fix : Lobby :=
  { lobbyId := "S", members := ["a", "b"], teamNames := [("a", "A"), ("b", "B")],
    observers := ["o"], pickedMaps := [], bannedMaps := [],
    rules := { gameName := "splatoon", gameType := "bo5", mapNames := ["s1", "s2"],
               mapRulesList := [], coinFlip := false, admin := false, mapPoolSize := 32,
               modesSize := 4, roundNumber := 1 },
    gameStep := 3, priorityTeam := some "A" }

/-- A store holding `lobC7fix` under id `"S"`. -/
def stC7fix : Store := fun k => if k == "S" then some lobC7fix else none

/-- Room membership in which the observer `o` sits in lobby room `S`. -/
def rmC7 : String → List String := fun r => if r == "S" then ["a", "b", "o"] else []

/-- Counterexample to C7 as stated: after the Splatoon pick, the
`canReportWinner` grant is a room broadcast that reaches the observer `o`,
who is not a member. -/
theorem mapban_C7_counterexample :
    lobC7fix.observers = ["o"] ∧ ("o" ∉ lobC7fix.members) ∧
    ((handlePick stC7fix ⟨[], [], none⟩ "a" "S" "s1" "A" "").2.2.any (fun e =>
      reaches rmC7 e.target "o" && (e.name == "canReportWinner") &&
      (e.value == EValue.bool true))) = true :=
  ⟨rfl, by decide, by decide⟩

/-- Claim C7 (amended): after a Splatoon map pick the handler emits, all as
broadcasts to the lobby room, the five capability disables followed by
`canReportWinner = true` (and a final `canWorkUpdated = false`); the grant
therefore reaches every connection in the room — members and observers alike
— rather than exactly the two members. -/
theorem mapban_C7_amended (st : Store) (sock : SocketState)
    (sid L mapName teamName side : String) (lobby : Lobby)
    (hst : st L = some lobby)
    (hcat : getGameCategory lobby.rules.gameName = "splatoon") :
    capEmits (handlePick st sock sid L mapName teamName side).2.2 =
      [⟨Target.room L, "canWorkUpdated", EValue.bool false⟩,
       ⟨Target.room L, "canBan", EValue.bool false⟩,
       ⟨Target.room L, "canPick", EValue.bool false⟩,
       ⟨Target.room L, "canModeBan", EValue.bool false⟩,
       ⟨Target.room L, "canModePick", EValue.bool false⟩,
       ⟨Target.room L, "canReportWinner", EValue.bool true⟩,
       ⟨Target.room L, "canWorkUpdated", EValue.bool false⟩] ∧
    (∀ (rm : String → List String), ∀ x ∈ rm L,
      ∃ e ∈ (handlePick st sock sid L mapName teamName side).2.2,
        reaches rm e.target x = true ∧ e.name = "canReportWinner" ∧
        e.value = EValue.bool true) := by
  have hfps : getGameCategory lobby.rules.gameName ≠ "fps" := by
    rw [hcat]; decide
  constructor
  · unfold handlePick
    rw [hst]
    simp [hcat, hfps, capEmits, capNames]
  · intro rm x hx
    refine ⟨⟨Target.room L, "canReportWinner", EValue.bool true⟩, ?_, ?_, rfl, rfl⟩
    · unfold handlePick
      rw [hst]
      simp [hcat, hfps]
    · simpa [reaches] using List.elem_eq_true_of_mem hx

/-- Witness for the amended C7 at the concrete Splatoon lobby. -/
theorem mapban_C7_amended_witness :
    capEmits (handlePick stC7fix ⟨[], [], none⟩ "a" "S" "s1" "A" "").2.2 =
      [⟨Target.room "S", "canWorkUpdated", EValue.bool false⟩,
       ⟨Target.room "S", "canBan", EValue.bool false⟩,
       ⟨Target.room "S", "canPick", EValue.bool false⟩,
       ⟨Target.room "S", "canModeBan", EValue.bool false⟩,
       ⟨Target.room "S", "canModePick", EValue.bool false⟩,
       ⟨Target.room "S", "canReportWinner", EValue.bool true⟩,
       ⟨Target.room "S", "canWorkUpdated", EValue.bool false⟩] :=
  (mapban_C7_amended stC7fix ⟨[], [], none⟩ "a" "S" "s1" "A" "" lobC7fix rfl rfl).1

/-- A disconnect step for one lobby id leaves every other store entry alone. -/
theorem disconnectStep_other (sid : String) (acc : Store × List Emit) (L1 L : String)
    (h : L ≠ L1) : (disconnectStep sid acc L1).1 L = acc.1 L := by
  unfold disconnectStep
  cases hm : acc.1 L1 with
  | none => rfl
  | some lobby =>
    by_cases hc : (setDel lobby.members sid).length = 0 ∧ lobby.rules.admin = false
    · simp only [hc, if_pos]
      exact Function.update_noteq h _ _
    · simp only [hc, if_neg]
      exact Function.update_noteq h _ _

/-- Folding the disconnect step over ids not containing `L` preserves entry `L`. -/
theorem foldl_disconnect_not_mem (sid L : String) :
    ∀ (ls : List String) (acc : Store × List Emit), L ∉ ls →
      (ls.foldl (disconnectStep sid) acc).1 L = acc.1 L := by
  intro ls
  induction ls with
  | nil => intro acc _; rfl
  | cons a as ih =>
    intro acc hnm
    rw [List.foldl_cons]
    rw [ih _ (fun hx => hnm (List.mem_cons_of_mem a hx))]
    exact disconnectStep_other sid acc a L (fun he => hnm (he ▸ List.mem_cons_self a as))

/-- A disconnect step only appends emissions. -/
theorem disconnectStep_emits (sid : String) (acc : Store × List Emit) (L1 : String)
    (e : Emit) (h : e ∈ acc.2) : e ∈ (disconnectStep sid acc L1).2 := by
  unfold disconnectStep
  cases hm : acc.1 L1 with
  | none => exact h
  | some lobby =>
    by_cases hc : (setDel lobby.members sid).length = 0 ∧ lobby.rules.admin = false
    · simp only [hc, if_pos]
      exact List.mem_append_left _ (List.mem_append_left _ h)
    · simp only [hc, if_neg]
      exact List.mem_append_left _ (List.mem_append_left _ h)

/-- The disconnect fold only appends emissions. -/
theorem foldl_disconnect_emits (sid : String) :
    ∀ (ls : List String) (acc : Store × List Emit) (e : Emit), e ∈ acc.2 →
      e ∈ (ls.foldl (disconnectStep sid) acc).2 := by
  intro ls
  induction ls with
  | nil => intro acc e h; exact h
  | cons a as ih =>
    intro acc e h
    rw [List.foldl_cons]
    exact ih _ e (disconnectStep_emits sid acc a e h)

/-- Generalized disconnect invariant: for any accumulator, the fold removes
the socket from `members` and `teamNames` of each of its distinct lobbies,
deletes exactly the emptied non-admin ones, and broadcasts
`teamNamesUpdated`. -/
theorem disconnect_aux (sid L : String) (lobby : Lobby) :
    ∀ (ls : List String) (st : Store) (es : List Emit),
      ls.Nodup → L ∈ ls → st L = some lobby →
      ((ls.foldl (disconnectStep sid) (st, es)).1 L =
        (if (setDel lobby.members sid).length = 0 ∧ lobby.rules.admin = false then none
         else some { lobby with
                     members := setDel lobby.members sid,
                     teamNames := mapDel lobby.teamNames sid })) ∧
      (⟨Target.room L, "teamNamesUpdated", EValue.obj⟩ ∈
        (ls.foldl (disconnectStep sid) (st, es)).2) := by
  intro ls
  induction ls with
  | nil => intro st es _ hmem _; exact absurd hmem (List.not_mem_nil L)
  | cons a as ih =>
    intro st es hnd hmem hst
    rw [List.foldl_cons]
    by_cases hL : a = L
    · subst hL
      have hnotin : a ∉ as := (List.nodup_cons.mp hnd).1
      have hstep : disconnectStep sid (st, es) a =
          if (setDel lobby.members sid).length = 0 ∧ lobby.rules.admin = false then
            (Function.update st a none,
             (es ++ [⟨Target.room a, "teamNamesUpdated", EValue.obj⟩]) ++
               [⟨Target.all, "lobbiesUpdated", EValue.unit⟩])
          else
            (Function.update st a
              (some { lobby with
                      members := setDel lobby.members sid,
                      teamNames := mapDel lobby.teamNames sid }),
             (es ++ [⟨Target.room a, "teamNamesUpdated", EValue.obj⟩]) ++
               [⟨Target.room a, "teamNamesUpdated", EValue.obj⟩]) := by
        simp only [disconnectStep, hst]
      constructor
      · rw [foldl_disconnect_not_mem sid a as _ hnotin, hstep]
        by_cases hc : (setDel lobby.members sid).length = 0 ∧ lobby.rules.admin = false
        · rw [if_pos hc, if_pos hc]
          exact Function.update_same _ _ _
        · rw [if_neg hc, if_neg hc]
          exact Function.update_same _ _ _
      · apply foldl_disconnect_emits
        rw [hstep]
        by_cases hc : (setDel lobby.members sid).length = 0 ∧ lobby.rules.admin = false
        · rw [if_pos hc]
          exact List.mem_append_left _ (List.mem_append_right _ (List.mem_singleton_self _))
        · rw [if_neg hc]
          exact List.mem_append_left _ (List.mem_append_right _ (List.mem_singleton_self _))
    · have hmem' : L ∈ as := by
        rcases List.mem_cons.mp hmem with h | h
        · exact absurd h.symm hL
        · exact h
      have hst' : (disconnectStep sid (st, es) a).1 L = some lobby := by
        rw [disconnectStep_other sid (st, es) a L (fun he => hL he.symm)]
        exact hst
      exact ih (disconnectStep sid (st, es) a).1 (disconnectStep sid (st, es) a).2
        (List.nodup_cons.mp hnd).2 hmem' hst'


/-- Membership after `setAdd` comes from the old set or is the new element. -/
theorem mem_setAdd {s : List String} {x y : String} (h : x ∈ setAdd s y) : x ∈ s ∨ x = y := by
  unfold setAdd at h
  split at h
  · exact Or.inl h
  · rcases List.mem_append.mp h with h1 | h1
    · exact Or.inl h1
    · exact Or.inr (List.mem_singleton.mp h1)

/-- An entry of `mapSet m k v` has a key of `m` or the key `k`. -/
theorem mem_mapSet {m : List (String × String)} {k v : String} {p : String × String}
    (h : p ∈ mapSet m k v) : (∃ q ∈ m, q.1 = p.1) ∨ p.1 = k := by
  unfold mapSet at h
  split at h
  · rcases List.mem_map.mp h with ⟨q, hq, he⟩
    by_cases hk : (q.1 == k) = true
    · rw [if_pos hk] at he
      right
      rw [← he]
    · rw [if_neg hk] at he
      left
      exact ⟨q, hq, by rw [he]⟩
  · rcases List.mem_append.mp h with h1 | h1
    · exact Or.inl ⟨p, h1, rfl⟩
    · right
      rw [List.mem_singleton.mp h1]

/-- Starting a game never touches `members`. -/
theorem startGameLobby_members (l : Lobby) : (startGameLobby l).members = l.members := by
  unfold startGameLobby
  split <;> rfl

/-- Starting a game never touches `teamNames`. -/
theorem startGameLobby_teamNames (l : Lobby) : (startGameLobby l).teamNames = l.teamNames := by
  unfold startGameLobby
  split <;> rfl

/-- Store effect of `joinLobby`: unchanged, or one lobby updated with at most
the joining socket added to `members` and `teamNames` untouched. -/
theorem handleJoinLobby_store (st : Store) (sock : SocketState) (sid lobbyId : String)
    (role : Role) :
    (handleJoinLobby st sock sid lobbyId role).1 = st ∨
    ∃ lobby lobby1, st lobbyId = some lobby ∧
      (handleJoinLobby st sock sid lobbyId role).1 = Function.update st lobbyId (some lobby1) ∧
      (lobby1.members = lobby.members ∨ lobby1.members = setAdd lobby.members sid) ∧
      lobby1.teamNames = lobby.teamNames := by
  cases role with
  | test =>
    left
    unfold handleJoinLobby
    simp
  | observer =>
    cases hm : st lobbyId with
    | none =>
      left
      unfold handleJoinLobby
      rw [hm]
      simp
    | some lobby =>
      right
      refine ⟨lobby, { lobby with observers := setAdd lobby.observers sid }, rfl, ?_, Or.inl rfl, rfl⟩
      unfold handleJoinLobby
      rw [hm]
      simp
  | member =>
    cases hm : st lobbyId with
    | none =>
      left
      unfold handleJoinLobby
      rw [hm]
      simp
    | some lobby =>
      right
      refine ⟨lobby, { lobby with members := setAdd lobby.members sid }, rfl, ?_, Or.inr rfl, rfl⟩
      unfold handleJoinLobby
      rw [hm]
      simp

/-- Store effect of `lobby.teamName`: unchanged, or one lobby updated with
`members` untouched and the sender's entry set in `teamNames`. -/
theorem handleTeamName_store (st : Store) (sid lobbyId raw : String) :
    (handleTeamName st sid lobbyId raw).1 = st ∨
    ∃ lobby lobby1, st lobbyId = some lobby ∧
      (handleTeamName st sid lobbyId raw).1 = Function.update st lobbyId (some lobby1) ∧
      lobby1.members = lobby.members ∧
      lobby1.teamNames = mapSet lobby.teamNames sid (sanitizeInput raw) := by
  cases hm : st lobbyId with
  | none =>
    left
    unfold handleTeamName
    rw [hm]
  | some lobby =>
    right
    by_cases hc : ¬({ lobby with teamNames := mapSet lobby.teamNames sid (sanitizeInput raw) } : Lobby).rules.admin = true ∧
        ({ lobby with teamNames := mapSet lobby.teamNames sid (sanitizeInput raw) } : Lobby).teamNames.length = 2
    · refine ⟨lobby,
        startGameLobby { lobby with teamNames := mapSet lobby.teamNames sid (sanitizeInput raw) },
        rfl, ?_, ?_, ?_⟩
      · simp only [handleTeamName, hm]
        rw [if_pos hc]
      · rw [startGameLobby_members]
      · rw [startGameLobby_teamNames]
    · refine ⟨lobby,
        { lobby with teamNames := mapSet lobby.teamNames sid (sanitizeInput raw) },
        rfl, ?_, rfl, rfl⟩
      simp only [handleTeamName, hm]
      rw [if_neg hc]

/-- One membership event adds at most the sender to a lobby's `members` and
`teamNames`. -/
theorem cstep_entry (st : Store) (e : CEvent) (L : String) (l1 : Lobby)
    (h : (cstep st e) L = some l1) :
    ∃ l0, st L = some l0 ∧
      (∀ x ∈ l1.members, x ∈ l0.members ∨ x = sidOf e) ∧
      (∀ p ∈ l1.teamNames, (∃ q ∈ l0.teamNames, q.1 = p.1) ∨ p.1 = sidOf e) := by
  cases e with
  | join sid lobbyId role =>
    simp only [cstep] at h
    rcases handleJoinLobby_store st ⟨[], [], none⟩ sid lobbyId role with hs | ⟨lobby, lobby1, hm, hs, hmem, htn⟩
    · rw [hs] at h
      exact ⟨l1, h, fun x hx => Or.inl hx, fun p hp => Or.inl ⟨p, hp, rfl⟩⟩
    · rw [hs] at h
      by_cases hL : lobbyId = L
      · subst hL
        rw [Function.update_same] at h
        cases h
        refine ⟨lobby, hm, ?_, ?_⟩
        · intro x hx
          rcases hmem with he | he
          · rw [he] at hx
            exact Or.inl hx
          · rw [he] at hx
            exact mem_setAdd hx
        · intro p hp
          rw [htn] at hp
          exact Or.inl ⟨p, hp, rfl⟩
      · rw [Function.update_noteq (fun hx => hL hx.symm)] at h
        exact ⟨l1, h, fun x hx => Or.inl hx, fun p hp => Or.inl ⟨p, hp, rfl⟩⟩
  | teamName sid lobbyId raw =>
    simp only [cstep] at h
    rcases handleTeamName_store st sid lobbyId raw with hs | ⟨lobby, lobby1, hm, hs, hmem, htn⟩
    · rw [hs] at h
      exact ⟨l1, h, fun x hx => Or.inl hx, fun p hp => Or.inl ⟨p, hp, rfl⟩⟩
    · rw [hs] at h
      by_cases hL : lobbyId = L
      · subst hL
        rw [Function.update_same] at h
        cases h
        refine ⟨lobby, hm, ?_, ?_⟩
        · intro x hx
          rw [hmem] at hx
          exact Or.inl hx
        · intro p hp
          rw [htn] at hp
          exact mem_mapSet hp
      · rw [Function.update_noteq (fun hx => hL hx.symm)] at h
        exact ⟨l1, h, fun x hx => Or.inl hx, fun p hp => Or.inl ⟨p, hp, rfl⟩⟩

/-- Claim C6 (amended): on disconnect, for every lobby the connection had
joined, the connection id is removed from `members` and `teamNames` (entries
in `observers` are never removed) and `teamNamesUpdated` is broadcast; the
lobby is deleted, with a `lobbiesUpdated` broadcast, exactly when `members`
becomes empty and `rules.admin` is false, so admin lobbies persist. -/
theorem mapban_C6_amended (st : Store) (sockLobbies : List String) (sid L : String)
    (lobby : Lobby) (hnd : sockLobbies.Nodup) (hmem : L ∈ sockLobbies)
    (hst : st L = some lobby) :
    ((handleDisconnect st sockLobbies sid).1 L =
      (if (setDel lobby.members sid).length = 0 ∧ lobby.rules.admin = false then none
       else some { lobby with
                   members := setDel lobby.members sid,
                   teamNames := mapDel lobby.teamNames sid })) ∧
    (⟨Target.room L, "teamNamesUpdated", EValue.obj⟩ ∈
      (handleDisconnect st sockLobbies sid).2) :=
  disconnect_aux sid L lobby sockLobbies st [] hnd hmem hst

/-- A concrete non-admin lobby with member `a` and observer `o`. -/
def lobC6fix : Lobby :=
  { lobbyId := "L", members := ["a"], teamNames := [("a", "A")], observers := ["o"],
    pickedMaps := [], bannedMaps := [],
    rules := { gameName := "cs", gameType := "bo1", mapNames := [], mapRulesList := [],
               coinFlip := false, admin := false, mapPoolSize := 7 },
    gameStep := 0 }

/-- A store holding `lobC6fix` under id `"L"`. -/
def stC6fix : Store := fun k => if k == "L" then some lobC6fix else none

/-- Counterexample to C6 as stated: after observer `o` disconnects, its id is
still in the lobby's `observers`. -/
theorem mapban_C6_counterexample :
    "o" ∈ lobC6fix.observers ∧
    ((handleDisconnect stC6fix ["L"] "o").1 "L").map (fun l => l.observers.contains "o") =
      some true :=
  ⟨by decide, by decide⟩

/-- Witness for the amended C6 at a concrete two-member lobby. -/
theorem mapban_C6_amended_witness :
    ((handleDisconnect stA ["L"] "a").1 "L" =
      (if (setDel lobA.members "a").length = 0 ∧ lobA.rules.admin = false then none
       else some { lobA with
                   members := setDel lobA.members "a",
                   teamNames := mapDel lobA.teamNames "a" })) ∧
    (⟨Target.room "L", "teamNamesUpdated", EValue.obj⟩ ∈ (handleDisconnect stA ["L"] "a").2) :=
  mapban_C6_amended stA ["L"] "a" "L" lobA (by decide) (by decide) rfl

/-- Claim C2 (amended): `members` and `teamNames` only ever gain entries
keyed by connections that sent joinLobby / lobby.teamName events, so their
sizes are bounded by the number of participating connections — but the code
imposes no cap of 2 on either. -/
theorem mapban_C2_amended (es : List CEvent) : ∀ (st : Store) (L : String) (l1 : Lobby),
    (crun st es) L = some l1 →
    ∃ l0, st L = some l0 ∧
      (∀ x ∈ l1.members, x ∈ l0.members ∨ x ∈ es.map sidOf) ∧
      (∀ p ∈ l1.teamNames, (∃ q ∈ l0.teamNames, q.1 = p.1) ∨ p.1 ∈ es.map sidOf) := by
  induction es with
  | nil =>
    intro st L l1 h
    exact ⟨l1, h, fun x hx => Or.inl hx, fun p hp => Or.inl ⟨p, hp, rfl⟩⟩
  | cons e es ih =>
    intro st L l1 h
    rcases ih (cstep st e) L l1 h with ⟨lm, hml, hmem1, htn1⟩
    rcases cstep_entry st e L lm hml with ⟨l0, h0, hmem0, htn0⟩
    refine ⟨l0, h0, ?_, ?_⟩
    · intro x hx
      rcases hmem1 x hx with h1 | h1
      · rcases hmem0 x h1 with h2 | h2
        · exact Or.inl h2
        · right
          rw [List.map_cons, h2]
          exact List.mem_cons_self _ _
      · right
        rw [List.map_cons]
        exact List.mem_cons_of_mem _ h1
    · intro p hp
      rcases htn1 p hp with h1 | h1
      · rcases h1 with ⟨q, hq, hqe⟩
        rcases htn0 q hq with h2 | h2
        · rcases h2 with ⟨r, hr, hre⟩
          exact Or.inl ⟨r, hr, by rw [hre, hqe]⟩
        · right
          rw [List.map_cons, ← hqe, ← h2]
          exact List.mem_cons_self _ _
      · right
        rw [List.map_cons]
        exact List.mem_cons_of_mem _ h1

/-- A concrete bo1 creation request for the C2 scenario. -/
def dC2fix : CreateFPSData :=
  { lobbyId := "L", gameName := "cs", gameType := "bo1", knifeDecider := false,
    mapPoolSize := 7, customMapPool := none, coinFlip := some false, admin := some false }

/-- Three distinct members join and name their teams. -/
def esC2fix : List CEvent :=
  [CEvent.join "a" "L" Role.member, CEvent.join "b" "L" Role.member,
   CEvent.join "c" "L" Role.member, CEvent.teamName "a" "L" "A",
   CEvent.teamName "b" "L" "B", CEvent.teamName "c" "L" "C"]

/-- Counterexample to C2 as stated: a reachable lobby state (fresh lobby,
three joins, three team names) has three members and three team names. -/
theorem mapban_C2_counterexample :
    ((crun ((handleCreateFPSLobby emptyStore true pool7 "x" dC2fix).1) esC2fix) "L").map
      (fun l => (l.members.length, l.teamNames.length)) = some (3, 3) := by
  rfl

/-- Witness for the amended C2 with a concrete one-event trace. -/
theorem mapban_C2_amended_witness :
    ∃ l0, stA "L" = some l0 ∧
      (∀ x ∈ ({ lobA with members := lobA.members ++ ["c"] } : Lobby).members,
        x ∈ l0.members ∨ x ∈ [CEvent.join "c" "L" Role.member].map sidOf) ∧
      (∀ p ∈ ({ lobA with members := lobA.members ++ ["c"] } : Lobby).teamNames,
        (∃ q ∈ l0.teamNames, q.1 = p.1) ∨ p.1 ∈ [CEvent.join "c" "L" Role.member].map sidOf) :=
  mapban_C2_amended [CEvent.join "c" "L" Role.member] stA "L" _ (by decide)

end Mapban
